import Mathlib

/-!
# A shallow embedding of `sh.c`

The shell of `src/sh.c` is embedded as pure functions.  Every call that
leaves the shell (an operating-system call, a write to `stdout`/`stderr`, a
call into the job-table library `jobs.h`) is recorded as an `Event`; the
values such calls return are inputs of the model.
-/

namespace Sh

/-! ## C strings -/

/-- A C string: the characters before the terminating NUL. -/
abbrev CStr := List Char

/-- The C function `strchr(s, c)`: the suffix of `s` starting at the first `c`, or `NULL`. -/
def strchr : CStr → Char → Option CStr
  | [], _ => none
  | a :: as, c => if a = c then some (a :: as) else strchr as c

/-- The C function `strrchr(s, c)`: the suffix of `s` starting at the last `c`, or `NULL`. -/
def strrchr : CStr → Char → Option CStr
  | [], _ => none
  | a :: as, c =>
    match strrchr as c with
    | some r => some r
    | none => if a = c then some (a :: as) else none

/-- The C function `strcmp(a, b)`: negative, zero or positive (only the sign is specified by C). -/
def strcmp : CStr → CStr → Int
  | [], [] => 0
  | [], _ :: _ => -1
  | _ :: _, [] => 1
  | a :: as, b :: bs => if a = b then strcmp as bs else if a.toNat < b.toNat then -1 else 1

/-- The C function `isspace` in the C locale. -/
def isspace (c : Char) : Bool :=
  c = ' ' || c = '\t' || c = '\n' || c.toNat = 11 || c.toNat = 12 || c = '\r'

/-- The digits of `atoi`: the decimal value of the leading digits of the string,
added to `acc` shifted left. -/
def atoi_digits : CStr → Int → Int
  | [], acc => acc
  | c :: cs, acc => if c.isDigit then atoi_digits cs (acc * 10 + ((c.toNat - 48 : Nat) : Int)) else acc

/-- The value a 32-bit C `int` holds for the integer `n`: `n` modulo `2^32`, taken
in `-2^31 .. 2^31 - 1` (two's complement; this is how a conversion to `int` and a
signed overflow come out on the targets the shell is built for). -/
def c_int (n : Int) : Int := (n + 2147483648) % 4294967296 - 2147483648

/-- The C function `strtol(s, NULL, 10)` with a 64-bit `long`: skips white space,
reads an optional sign and the decimal digits that follow, and gives `LONG_MIN` or
`LONG_MAX` when the value is out of range. -/
def strtol (s : CStr) : Int :=
  let value : Int :=
    match s.dropWhile isspace with
    | '-' :: cs => - atoi_digits cs 0
    | '+' :: cs => atoi_digits cs 0
    | cs => atoi_digits cs 0
  if value < -9223372036854775808 then -9223372036854775808
  else if 9223372036854775807 < value then 9223372036854775807
  else value

/-- The C function `atoi` as glibc defines it, `(int) strtol(s, NULL, 10)`: the
result is an `int`, so `atoi("4294967297")` is 1. -/
def atoi (s : CStr) : Int := c_int (strtol s)

/-! ## `is_builtin` -/

/-- Function `is_builtin` (sh.c 178-188). -/
def is_builtin (command_path : CStr) : Int :=
  if strchr command_path '/' ≠ none then
    0
  else if strcmp command_path "cd".toList = 0 ∨ strcmp command_path "ln".toList = 0 ∨
      strcmp command_path "rm".toList = 0 ∨ strcmp command_path "exit".toList = 0 ∨
      strcmp command_path "jobs".toList = 0 ∨ strcmp command_path "fg".toList = 0 ∨
      strcmp command_path "bg".toList = 0 then 1
  else 0

/-! ## Wait statuses

The status word written by `waitpid` is decoded by the macros of `<sys/wait.h>`;
they are given here as glibc defines them (`bits/waitstatus.h`), with `x & 0x7f`
written `x % 128` and `(x & 0xff00) >> 8` written `(x / 256) % 256`. -/

/-- Macro `WTERMSIG(status)`: `status & 0x7f`. -/
def WTERMSIG (status : Int) : Int := status % 128

/-- Macro `WEXITSTATUS(status)`: `(status & 0xff00) >> 8`. -/
def WEXITSTATUS (status : Int) : Int := (status / 256) % 256

/-- Macro `WSTOPSIG(status)`: the same bits as `WEXITSTATUS`. -/
def WSTOPSIG (status : Int) : Int := WEXITSTATUS status

/-- Conversion to `signed char`. -/
def signed_char (x : Int) : Int := if x % 256 < 128 then x % 256 else x % 256 - 256

/-- Macro `WIFEXITED(status)`: `WTERMSIG(status) == 0`. -/
def WIFEXITED (status : Int) : Bool := decide (WTERMSIG status = 0)

/-- Macro `WIFSIGNALED(status)`: `((signed char) ((status & 0x7f) + 1) >> 1) > 0`. -/
def WIFSIGNALED (status : Int) : Bool := decide (signed_char (status % 128 + 1) / 2 > 0)

/-- Macro `WIFSTOPPED(status)`: `(status & 0xff) == 0x7f`. -/
def WIFSTOPPED (status : Int) : Bool := decide (status % 256 = 127)

/-- Macro `WIFCONTINUED(status)`: `status == 0xffff`. -/
def WIFCONTINUED (status : Int) : Bool := decide (status = 65535)

/-! ## The job table (`jobs.h`) -/

/-- The type `process_state_t` of `jobs.h`. -/
inductive process_state_t where
  | RUNNING
  | STOPPED
  deriving DecidableEq, Repr

/-- One tracked job (spec section 3): jid, pid of the group leader, state and the
command string given to `add_job` (a `char *`, possibly `NULL`). -/
structure job where
  jid : Int
  pid : Int
  state : process_state_t
  command : Option CStr
  deriving DecidableEq, Repr

/-- Modelled from the spec: the job table of `jobs.c`, which is not among the
sources.  Section 4.1 describes a table of bounded capacity kept in insertion
order. -/
structure job_list_t where
  capacity : Nat
  entries : List job
  deriving DecidableEq, Repr

/-- Modelled from the spec: `init_job_list`, the empty table created at session
start (`jobs.c` is not among the sources). -/
def init_job_list (capacity : Nat) : job_list_t := ⟨capacity, []⟩

/-- Modelled from the spec: `add_job` (`add` of section 4.1, `jobs.c` is not among
the sources) inserts a new entry and drops the insertion beyond capacity. -/
def add_job (job_list : job_list_t) (jid pid : Int) (state : process_state_t)
    (command : Option CStr) : Int × job_list_t :=
  if job_list.entries.length < job_list.capacity then
    (0, { job_list with entries := job_list.entries ++ [⟨jid, pid, state, command⟩] })
  else (-1, job_list)

/-- Replaces the state of the first entry satisfying `p`. -/
def update_first (p : job → Bool) (state : process_state_t) : List job → List job
  | [] => []
  | j :: js => if p j then { j with state := state } :: js else j :: update_first p state js

/-- Modelled from the spec: `remove_job_jid` (`remove_by_jid` of section 4.1, `jobs.c`
is not among the sources) deletes the matching entry and fails if it is absent. -/
def remove_job_jid (job_list : job_list_t) (jid : Int) : Int × job_list_t :=
  if job_list.entries.any (fun j => decide (j.jid = jid)) then
    (0, { job_list with entries := job_list.entries.eraseP (fun j => decide (j.jid = jid)) })
  else (-1, job_list)

/-- Modelled from the spec: `remove_job_pid` (`remove_by_pid` of section 4.1, `jobs.c`
is not among the sources) deletes the matching entry and fails if it is absent. -/
def remove_job_pid (job_list : job_list_t) (pid : Int) : Int × job_list_t :=
  if job_list.entries.any (fun j => decide (j.pid = pid)) then
    (0, { job_list with entries := job_list.entries.eraseP (fun j => decide (j.pid = pid)) })
  else (-1, job_list)

/-- Modelled from the spec: `update_job_jid` (`update_state_by_jid` of section 4.1,
`jobs.c` is not among the sources) changes the state in place and fails if the
entry is absent. -/
def update_job_jid (job_list : job_list_t) (jid : Int) (state : process_state_t) :
    Int × job_list_t :=
  if job_list.entries.any (fun j => decide (j.jid = jid)) then
    (0, { job_list with
      entries := update_first (fun j => decide (j.jid = jid)) state job_list.entries })
  else (-1, job_list)

/-- Modelled from the spec: `update_job_pid` (`update_state_by_pid` of section 4.1,
`jobs.c` is not among the sources) changes the state in place and fails if the
entry is absent. -/
def update_job_pid (job_list : job_list_t) (pid : Int) (state : process_state_t) :
    Int × job_list_t :=
  if job_list.entries.any (fun j => decide (j.pid = pid)) then
    (0, { job_list with
      entries := update_first (fun j => decide (j.pid = pid)) state job_list.entries })
  else (-1, job_list)

/-- Modelled from the spec: `get_job_pid` (`lookup_pid` of section 4.1, `jobs.c` is
not among the sources) gives the pid of the job `jid`, or the sentinel -1. -/
def get_job_pid (job_list : job_list_t) (jid : Int) : Int :=
  match job_list.entries.find? (fun j => decide (j.jid = jid)) with
  | some j => j.pid
  | none => -1

/-- Modelled from the spec: `get_job_jid` (`lookup_jid` of section 4.1, `jobs.c` is
not among the sources) gives the jid of the job `pid`, or the sentinel -1. -/
def get_job_jid (job_list : job_list_t) (pid : Int) : Int :=
  match job_list.entries.find? (fun j => decide (j.pid = pid)) with
  | some j => j.jid
  | none => -1

/-! ## Events and the operating system -/

/-- The signals the shell names. -/
inductive Signal where
  | SIGINT
  | SIGQUIT
  | SIGCONT
  | SIGTSTP
  | SIGTTOU
  deriving DecidableEq, Repr

/-- The dispositions given to `signal`. -/
inductive Disposition where
  | SIG_IGN
  | SIG_DFL
  deriving DecidableEq, Repr

/-- The option flags of `waitpid`. -/
inductive WaitOption where
  | WNOHANG
  | WUNTRACED
  | WCONTINUED
  deriving DecidableEq, Repr

/-- The flags given to `open`. -/
inductive OpenFlag where
  | O_RDONLY
  | O_WRONLY
  | O_CREAT
  | O_APPEND
  | O_TRUNC
  deriving DecidableEq, Repr

/-- A call that leaves the shell, with its arguments.  The file descriptor of
`tcsetpgrp` and `read` is always `STDIN_FILENO` and is left out. -/
inductive Event where
  | printf (format : String) (args : List Int)
  | fprintf_stderr (message : String)
  | perror (message : String)
  | read
  | getpgrp
  | getpid
  | signal (sig : Signal) (handler : Disposition)
  | fork
  | setpgid (pid pgid : Int)
  | tcsetpgrp (pgrp : Int)
  | waitpid (pid : Int) (options : List WaitOption)
  | kill (pid : Int) (sig : Signal)
  | chdir (path : CStr)
  | link (oldpath : CStr) (newpath : Option CStr)
  | unlink (path : CStr)
  | sys_open (path : CStr) (flags : List OpenFlag)
  | dup2 (oldfd newfd : Int)
  | close (fd : Int)
  | execv (path : CStr) (args : List CStr)
  | exit_process (code : Int)
  | init_job_list
  | add_job (jid pid : Int) (state : process_state_t) (command : Option CStr)
  | remove_job_jid (jid : Int)
  | remove_job_pid (pid : Int)
  | update_job_jid (jid : Int) (state : process_state_t)
  | update_job_pid (pid : Int) (state : process_state_t)
  | jobs
  | cleanup_job_list (job_list : Option job_list_t)
  deriving DecidableEq, Repr

/-- What the operating system answers to the calls of one dispatch cycle: the
return value of each call, and the word `waitpid` leaves in `status` (any value
when `waitpid` failed and `status` stayed uninitialised). -/
structure OS where
  fork : Int
  getpid : Int
  setpgid : Int
  kill : Int
  tcsetpgrp_grant : Int
  waitpid : Int
  status : Int
  tcsetpgrp_reclaim : Int
  chdir : Int
  link : Int
  unlink : Int
  open_in : Int
  dup2_in : Int
  open_out : Int
  dup2_out : Int
  execv : Int
  deriving DecidableEq, Repr

/-- The constant `EXIT_FAILURE`. -/
def EXIT_FAILURE : Int := 1

/-- The constant `TOKEN_SIZE` (sh.c 12). -/
def TOKEN_SIZE : Nat := 512

/-! ## The variables of the shell -/

/-- The globals `job_list` and `next_jid` (sh.c 14-15) and the variables of `main`
that live across iterations (sh.c 498-506); `none` is `NULL`.  `argv` holds, for
each slot, the string the slot pointed at when it was written: a slot left over
from an earlier line is only ever tested against `NULL`, never read, so the text
that `read` has since put under the pointer is not tracked.  The field `next_jid`
holds the C `int` of that name: it is read through `c_int` and `next_jid++` stores
`c_int (next_jid + 1)`. -/
structure Shell where
  job_list : Option job_list_t
  next_jid : Int
  argv : List (Option CStr)
  command_path : Option CStr
  in_file : Option CStr
  out_file : Option CStr
  append_flag : Int
  foreground : Int
  deriving DecidableEq, Repr

/-- The value of `argv[i]`. -/
def argv_at (argv : List (Option CStr)) (i : Nat) : Option CStr := argv.getD i none

/-! ## Reading and parsing a line -/

/-- Function `handle_input` (sh.c 56-72): 1 at end of input, 2 on a blank line, 0 otherwise.
`buffer` is read up to its first NUL. -/
def handle_input (buffer : CStr) (bytes_read : Int) : Int :=
  if bytes_read = 0 then 1
  else
    match buffer.dropWhile (fun c => c ≠ '\x00' && isspace c) with
    | [] => 2
    | c :: _ => if c = '\x00' then 2 else 0

/-- The tokens that the successive calls `strtok(buffer, " \t\n")`,
`strtok(NULL, " \t\n")`, ... return, in order; `cur` is the token being read,
reversed. -/
def strtok_all : CStr → CStr → List CStr
  | [], cur => if cur = [] then [] else [cur.reverse]
  | c :: cs, cur =>
    if c = '\x00' then (if cur = [] then [] else [cur.reverse])
    else if c = ' ' ∨ c = '\t' ∨ c = '\n' then
      (if cur = [] then strtok_all cs [] else cur.reverse :: strtok_all cs [])
    else strtok_all cs (c :: cur)

/-- How the `while` loop of `parse` is left. -/
inductive ParseLoop where
  | returned (s : Shell) (events : List Event)
  | finished (s : Shell) (argc : Nat)
  | overflowed (s : Shell)
  deriving DecidableEq, Repr

/-- The `while (token != NULL)` loop of `parse` (sh.c 97-160) over the tokens still
to come; the pointer parameters of `parse` are the variables of `main` in `s`.  A
token stored at `argv[argc]` with `argc` not below `TOKEN_SIZE` is written past the
array `char *argv[TOKEN_SIZE]`: the loop is then left as `overflowed`. -/
def parse_loop : List CStr → Nat → Shell → ParseLoop
  | [], argc, s => .finished s argc
  | token :: rest, argc, s =>
    if strcmp token "<".toList = 0 then
      if s.in_file ≠ none then
        .returned { s with command_path := none }
          [.fprintf_stderr "ERROR - Can't have two input redirects on one line.\n"]
      else
        match rest with
        | [] =>
          .returned { s with command_path := none }
            [.fprintf_stderr "ERROR - No redirection file specified.\n"]
        | token :: rest => parse_loop rest argc { s with in_file := some token }
    else if strcmp token ">".toList = 0 then
      if s.out_file ≠ none then
        .returned { s with command_path := none }
          [.fprintf_stderr "ERROR - Can't have two output redirects on one line.\n"]
      else
        match rest with
        | [] =>
          .returned { s with append_flag := 0, command_path := none }
            [.fprintf_stderr "ERROR - No redirection file specified.\n"]
        | token :: rest => parse_loop rest argc { s with append_flag := 0, out_file := some token }
    else if strcmp token ">>".toList = 0 then
      if s.out_file ≠ none then
        .returned { s with command_path := none }
          [.fprintf_stderr "ERROR - Can't have two output redirects on one line.\n"]
      else
        match rest with
        | [] =>
          .returned { s with append_flag := 1, command_path := none }
            [.fprintf_stderr "ERROR - No redirection file specified.\n"]
        | token :: rest => parse_loop rest argc { s with append_flag := 1, out_file := some token }
    else if TOKEN_SIZE ≤ argc then .overflowed s
    else if s.command_path = none then
      match strrchr token '/' with
      | some name =>
        parse_loop rest (argc + 1)
          { s with command_path := some token, argv := s.argv.set argc (some name.tail) }
      | none =>
        parse_loop rest (argc + 1)
          { s with command_path := some token, argv := s.argv.set argc (some token) }
    else parse_loop rest (argc + 1) { s with argv := s.argv.set argc (some token) }

/-- Function `parse` (sh.c 88-170): the variables afterwards, what was written to
stderr, and whether a slot past the end of `argv` was written (undefined behaviour;
this happens on a line of `TOKEN_SIZE` tokens, where `argv[argc] = NULL` has
`argc = TOKEN_SIZE`).  On an early `return` the slots of `argv` written so far and
`foreground` stay as they are. -/
def parse (buffer : CStr) (s : Shell) : Shell × List Event × Bool :=
  match parse_loop (strtok_all buffer [])
      0 { s with in_file := none, out_file := none, append_flag := 0 } with
  | .returned s events => (s, events, false)
  | .overflowed s => (s, [], true)
  | .finished s argc =>
    if argc > 0 ∧ (argv_at s.argv (argc - 1)).any
        (fun last => decide (strcmp last "&".toList = 0)) then
      ({ s with foreground := 0, argv := (s.argv.set (argc - 1) none).set argc none }, [],
        decide (TOKEN_SIZE ≤ argc))
    else ({ s with foreground := 1, argv := s.argv.set argc none }, [],
      decide (TOKEN_SIZE ≤ argc))

/-! ## Builtins -/

/-- Function `handle_fg` (sh.c 198-269): the return value, the job table afterwards and the
calls made. -/
def handle_fg (job_list : job_list_t) (argv : List (Option CStr)) (shell_pgid : Int)
    (os : OS) : Int × job_list_t × List Event :=
  match argv_at argv 1 with
  | none => (1, job_list, [.fprintf_stderr "fg: syntax error\n"])
  | some jid_str =>
    if jid_str.head? ≠ some '%' then (1, job_list, [.fprintf_stderr "fg: syntax error\n"])
    else
      let jid := atoi jid_str.tail
      let pid := get_job_pid job_list jid
      if pid = -1 then (1, job_list, [.fprintf_stderr "fg: no such job\n"])
      else if os.kill < 0 then
        (1, job_list, [.kill (-pid) .SIGCONT, .perror "kill(SIGCONT) error"])
      else if os.tcsetpgrp_grant < 0 then
        (1, job_list, [.kill (-pid) .SIGCONT, .tcsetpgrp pid, .perror "tcsetpgrp error"])
      else
        let running := update_job_jid job_list jid .RUNNING
        if running.1 < 0 then
          (1, running.2, [.kill (-pid) .SIGCONT, .tcsetpgrp pid, .update_job_jid jid .RUNNING,
            .fprintf_stderr "Failed to update job status\n"])
        else
          let events :=
            [.kill (-pid) .SIGCONT, .tcsetpgrp pid, .update_job_jid jid .RUNNING,
              .waitpid (-pid) [.WUNTRACED]]
            ++ (if os.waitpid = -1 then [Event.perror "waitpid error"] else [])
            ++ [.tcsetpgrp shell_pgid]
            ++ (if os.tcsetpgrp_reclaim < 0 then [Event.perror "tcsetpgrp error"] else [])
          let status := os.status
          if WIFSTOPPED status then
            let stopped := update_job_jid running.2 jid .STOPPED
            if stopped.1 < 0 then
              (1, stopped.2, events ++ [.update_job_jid jid .STOPPED,
                .fprintf_stderr "Failed to update job status\n"])
            else
              (1, stopped.2, events ++ [.update_job_jid jid .STOPPED,
                .printf "[%d] (%d) suspended by signal %d\n" [jid, pid, WSTOPSIG status]])
          else if WIFSIGNALED status then
            let removed := remove_job_jid running.2 jid
            (1, removed.2, events
              ++ [.printf "(%d) terminated by signal %d\n" [pid, WTERMSIG status],
                .remove_job_jid jid]
              ++ (if removed.1 < 0 then [Event.fprintf_stderr "Failed to remove job\n"] else []))
          else if WIFEXITED status then
            let removed := remove_job_jid running.2 jid
            (1, removed.2, events ++ [.remove_job_jid jid]
              ++ (if removed.1 < 0 then [Event.fprintf_stderr "Failed to remove job\n"] else []))
          else (1, running.2, events)

/-- Function `handle_bg` (sh.c 279-312): the return value, the job table afterwards and the
calls made. -/
def handle_bg (job_list : job_list_t) (argv : List (Option CStr)) (os : OS) :
    Int × job_list_t × List Event :=
  match argv_at argv 1 with
  | none => (1, job_list, [.fprintf_stderr "bg: syntax error\n"])
  | some jid_str =>
    if jid_str.head? ≠ some '%' then (1, job_list, [.fprintf_stderr "bg: syntax error\n"])
    else
      let jid := atoi jid_str.tail
      let pid := get_job_pid job_list jid
      if pid = -1 then (1, job_list, [.fprintf_stderr "bg: no such job\n"])
      else if os.kill < 0 then
        (1, job_list, [.kill (-pid) .SIGCONT, .perror "kill(SIGCONT) error"])
      else
        let running := update_job_jid job_list jid .RUNNING
        if running.1 < 0 then
          (1, running.2, [.kill (-pid) .SIGCONT, .update_job_jid jid .RUNNING,
            .fprintf_stderr "Failed to update job status\n"])
        else (1, running.2, [.kill (-pid) .SIGCONT, .update_job_jid jid .RUNNING])

/-- Function `handle_builtin` (sh.c 324-376): the return value, the global `job_list`
afterwards (`none` once it is set to `NULL`) and the calls made.  The result is
`none` when `argv[0]` is `NULL`, where `strrchr` is undefined. -/
def handle_builtin (job_list : job_list_t) (argv : List (Option CStr)) (shell_pgid : Int)
    (os : OS) : Option (Int × Option job_list_t × List Event) :=
  match argv_at argv 0 with
  | none => none
  | some argv0 =>
    let name := match strrchr argv0 '/' with
      | some name => name.tail
      | none => argv0
    if strcmp name "cd".toList = 0 then
      match argv_at argv 1 with
      | none => some (1, some job_list, [.fprintf_stderr "cd: missing argument\n"])
      | some dir =>
        if argv_at argv 2 ≠ none then
          some (1, some job_list, [.fprintf_stderr "cd: syntax error\n"])
        else if os.chdir ≠ 0 then
          some (1, some job_list, [.chdir dir, .perror "cd error"])
        else some (1, some job_list, [.chdir dir])
    else if strcmp name "ln".toList = 0 then
      match argv_at argv 1 with
      | none => some (1, some job_list, [.fprintf_stderr "ln: missing arguments\n"])
      | some oldpath =>
        if os.link ≠ 0 then
          some (1, some job_list, [.link oldpath (argv_at argv 2), .perror "ln error"])
        else some (1, some job_list, [.link oldpath (argv_at argv 2)])
    else if strcmp name "rm".toList = 0 then
      match argv_at argv 1 with
      | none => some (1, some job_list, [.fprintf_stderr "rm: missing argument\n"])
      | some path =>
        if os.unlink ≠ 0 then some (1, some job_list, [.unlink path, .perror "rm error"])
        else some (1, some job_list, [.unlink path])
    else if strcmp name "jobs".toList = 0 then some (1, some job_list, [.jobs])
    else if strcmp name "fg".toList = 0 then
      let r := handle_fg job_list argv shell_pgid os
      some (r.1, some r.2.1, r.2.2)
    else if strcmp name "bg".toList = 0 then
      let r := handle_bg job_list argv os
      some (r.1, some r.2.1, r.2.2)
    else if strcmp name "exit".toList = 0 then
      some (-1, none, [.cleanup_job_list (some job_list)])
    else some (0, some job_list, [])

/-! ## Running a command -/

/-- How a forked child ends: its image is replaced by `execv`, or it calls `exit`. -/
inductive ChildEnd where
  | execed
  | exited (code : Int)
  deriving DecidableEq, Repr

/-- The argument vector `execv` reads: the strings of `argv` before the first `NULL`. -/
def execv_args (argv : List (Option CStr)) : List CStr :=
  (argv.takeWhile Option.isSome).filterMap id

/-- The input redirection of `execute_command` (sh.c 403-414): the calls made, and
whether the child has exited. -/
def redirect_input (in_file : Option CStr) (os : OS) : List Event × Bool :=
  match in_file with
  | none => ([], false)
  | some in_file =>
    if os.open_in < 0 then
      ([.sys_open in_file [.O_RDONLY], .perror "Failed to open input file",
        .exit_process EXIT_FAILURE], true)
    else if os.dup2_in < 0 then
      ([.sys_open in_file [.O_RDONLY], .dup2 os.open_in 0, .perror "Failed to redirect stdin",
        .exit_process EXIT_FAILURE], true)
    else ([.sys_open in_file [.O_RDONLY], .dup2 os.open_in 0, .close os.open_in], false)

/-- The output redirection of `execute_command` (sh.c 417-433): the calls made, and
whether the child has exited. -/
def redirect_output (out_file : Option CStr) (append_flag : Int) (os : OS) :
    List Event × Bool :=
  match out_file with
  | none => ([], false)
  | some out_file =>
    let flags : List OpenFlag :=
      if append_flag ≠ 0 then [.O_WRONLY, .O_CREAT, .O_APPEND] else [.O_WRONLY, .O_CREAT, .O_TRUNC]
    if os.open_out < 0 then
      ([.sys_open out_file flags, .perror "Failed to open output file",
        .exit_process EXIT_FAILURE], true)
    else if os.dup2_out < 0 then
      ([.sys_open out_file flags, .dup2 os.open_out 1, .perror "Failed to redirect stdout",
        .exit_process EXIT_FAILURE], true)
    else ([.sys_open out_file flags, .dup2 os.open_out 1, .close os.open_out], false)

/-- Function `execute_command` (sh.c 390-439): the calls made and how the process ended,
`none` when the function returns to its caller. -/
def execute_command (command_path : Option CStr) (argv : List (Option CStr))
    (in_file out_file : Option CStr) (append_flag : Int) (os : OS) :
    List Event × Option ChildEnd :=
  match command_path with
  | none => ([], none)
  | some command_path =>
    if argv_at argv 0 = none then ([.fprintf_stderr "ERROR - No command.\n"], none)
    else
      let input := redirect_input in_file os
      if input.2 then (input.1, some (.exited EXIT_FAILURE))
      else
        let output := redirect_output out_file append_flag os
        if output.2 then (input.1 ++ output.1, some (.exited EXIT_FAILURE))
        else if os.execv = -1 then
          (input.1 ++ output.1 ++ [.execv command_path (execv_args argv), .perror "execv error",
            .exit_process EXIT_FAILURE], some (.exited EXIT_FAILURE))
        else (input.1 ++ output.1 ++ [.execv command_path (execv_args argv)], some .execed)

/-- One result `(pid, status)` of `waitpid(-1, &status, WNOHANG | WUNTRACED | WCONTINUED)`. -/
abbrev Reaped := Int × Int

/-- Function `check_background_jobs` (sh.c 448-476) over the results of its successive
`waitpid` calls; the loop ends at the first result that is not positive, and a
call after the listed results returns no child. -/
def check_background_jobs (job_list : job_list_t) : List Reaped → job_list_t × List Event
  | [] => (job_list, [.waitpid (-1) [.WNOHANG, .WUNTRACED, .WCONTINUED]])
  | (pid, status) :: rest =>
    if pid > 0 then
      let jid := get_job_jid job_list pid
      if WIFEXITED status then
        let r := check_background_jobs (remove_job_pid job_list pid).2 rest
        (r.1, [.waitpid (-1) [.WNOHANG, .WUNTRACED, .WCONTINUED],
          .printf "[%d] (%d) terminated with exit status %d\n" [jid, pid, WEXITSTATUS status],
          .remove_job_pid pid] ++ r.2)
      else if WIFSIGNALED status then
        let r := check_background_jobs (remove_job_pid job_list pid).2 rest
        (r.1, [.waitpid (-1) [.WNOHANG, .WUNTRACED, .WCONTINUED],
          .printf "[%d] (%d) terminated by signal %d\n" [jid, pid, WTERMSIG status],
          .remove_job_pid pid] ++ r.2)
      else if WIFSTOPPED status then
        let r := check_background_jobs (update_job_pid job_list pid .STOPPED).2 rest
        (r.1, [.waitpid (-1) [.WNOHANG, .WUNTRACED, .WCONTINUED],
          .printf "[%d] (%d) suspended by signal %d\n" [jid, pid, WSTOPSIG status],
          .update_job_pid pid .STOPPED] ++ r.2)
      else if WIFCONTINUED status then
        let r := check_background_jobs (update_job_pid job_list pid .RUNNING).2 rest
        (r.1, [.waitpid (-1) [.WNOHANG, .WUNTRACED, .WCONTINUED],
          .printf "[%d] (%d) resumed\n" [jid, pid],
          .update_job_pid pid .RUNNING] ++ r.2)
      else
        let r := check_background_jobs job_list rest
        (r.1, [.waitpid (-1) [.WNOHANG, .WUNTRACED, .WCONTINUED]] ++ r.2)
    else (job_list, [.waitpid (-1) [.WNOHANG, .WUNTRACED, .WCONTINUED]])

/-- The child branch of `main` (sh.c 552-575). -/
def main_child (s : Shell) (os : OS) : List Event × ChildEnd :=
  if os.setpgid = -1 then
    ([.setpgid 0 0, .perror "setpgid error in child process", .exit_process EXIT_FAILURE],
      .exited EXIT_FAILURE)
  else if s.foreground ≠ 0 ∧ os.tcsetpgrp_grant = -1 then
    ([.setpgid 0 0, .getpid, .tcsetpgrp os.getpid, .perror "tcsetpgrp error in child process",
      .exit_process EXIT_FAILURE], .exited EXIT_FAILURE)
  else
    let events : List Event :=
      [.setpgid 0 0] ++ (if s.foreground ≠ 0 then [Event.getpid, .tcsetpgrp os.getpid] else [])
      ++ [.signal .SIGINT .SIG_DFL, .signal .SIGTSTP .SIG_DFL, .signal .SIGTTOU .SIG_DFL,
        .signal .SIGQUIT .SIG_DFL]
    match execute_command s.command_path s.argv s.in_file s.out_file s.append_flag os with
    | (executed, some e) => (events ++ executed, e)
    | (executed, none) =>
      (events ++ executed ++ [.exit_process EXIT_FAILURE], .exited EXIT_FAILURE)

/-- The parent branch of `main` (sh.c 576-613) for the child `pid`; `job_list` is
the table the global points at.  The `int next_jid` is read through `c_int`, and
`next_jid++` and `next_jid - 1` are computed in `int`. -/
def main_parent (s : Shell) (job_list : job_list_t) (pid shell_pgid : Int) (os : OS) :
    Shell × List Event :=
  let grouped : List Event :=
    [.setpgid pid pid]
    ++ (if os.setpgid = -1 then [Event.perror "setpgid error in parent process"] else [])
  if s.foreground ≠ 0 then
    let waited : List Event :=
      grouped ++ [.tcsetpgrp pid]
      ++ (if os.tcsetpgrp_grant = -1 then [Event.perror "tcsetpgrp error in parent process"]
        else [])
      ++ [.waitpid pid [.WUNTRACED]]
      ++ (if os.waitpid = -1 then [Event.perror "wait error"] else [])
    let status := os.status
    let reclaim : List Event :=
      [.tcsetpgrp shell_pgid]
      ++ (if os.tcsetpgrp_reclaim = -1 then
        [Event.perror "tcsetpgrp error returning control to shell"] else [])
    if WIFSTOPPED status then
      ({ s with
          job_list := some (add_job job_list (c_int s.next_jid) pid .STOPPED s.command_path).2
          next_jid := c_int (s.next_jid + 1) },
        waited ++ [.add_job (c_int s.next_jid) pid .STOPPED s.command_path,
          .printf "[%d] (%d) suspended by signal %d\n"
            [c_int (c_int (s.next_jid + 1) - 1), pid, WSTOPSIG status]]
        ++ reclaim)
    else if WIFSIGNALED status then
      (s, waited ++ [.printf "(%d) terminated by signal %d\n" [pid, WTERMSIG status]] ++ reclaim)
    else (s, waited ++ reclaim)
  else
    ({ s with
        job_list := some (add_job job_list (c_int s.next_jid) pid .RUNNING s.command_path).2
        next_jid := c_int (s.next_jid + 1) },
      grouped ++ [.add_job (c_int s.next_jid) pid .RUNNING s.command_path,
        .printf "[%d] (%d)\n" [c_int s.next_jid, pid]])

/-! ## The dispatch loop -/

/-- What one iteration of the loop reads from outside: the results of the `waitpid`
calls of `check_background_jobs`, the return value of `read`, the string `buffer`
holds after `read_input` (the line read or, when nothing was stored, what was there
before), and the answers of the operating system. -/
structure CycleInput where
  reaped : List Reaped
  bytes_read : Int
  buffer : CStr
  os : OS
  deriving DecidableEq, Repr

/-- Where control is after an iteration: at the top of the loop again, past the
loop (`break`), at the end of a forked child, or in undefined behaviour. -/
inductive Ctl where
  | running
  | exited
  | child (e : ChildEnd)
  | fault
  deriving DecidableEq, Repr

/-- The variables, the calls made and the control state. -/
structure Step where
  shell : Shell
  events : List Event
  ctl : Ctl
  deriving DecidableEq, Repr

/-- One iteration of the `while (1)` loop of `main` (sh.c 508-618), built without
`PROMPT`.  With `job_list` equal to `NULL` at the top of the loop the job table
would be dereferenced: this is `fault`, and so is a `parse` that has written past
the end of `argv`. -/
def cycle (s : Shell) (shell_pgid : Int) (inp : CycleInput) : Step :=
  match s.job_list with
  | none => ⟨s, [], .fault⟩
  | some job_list =>
    let reaped := check_background_jobs job_list inp.reaped
    let job_list := reaped.1
    let s := { s with job_list := some job_list }
    let events : List Event :=
      reaped.2 ++ [.read] ++ (if inp.bytes_read < 0 then [Event.perror "read error"] else [])
    let special_case := handle_input inp.buffer inp.bytes_read
    if special_case = 1 then
      ⟨{ s with job_list := none }, events ++ [.cleanup_job_list (some job_list)], .exited⟩
    else if special_case = 2 then ⟨s, events, .running⟩
    else
      let parsed := parse inp.buffer
        { s with command_path := none, in_file := none, out_file := none, append_flag := 0 }
      let s := parsed.1
      let events := events ++ parsed.2.1
      if parsed.2.2 then ⟨s, events, .fault⟩
      else if s.command_path.any (fun command_path => decide (is_builtin command_path ≠ 0)) then
        match handle_builtin job_list s.argv shell_pgid inp.os with
        | none => ⟨s, events, .fault⟩
        | some (builtin_result, job_list, handled) =>
          if builtin_result = -1 then
            ⟨{ s with job_list := none }, events ++ handled ++ [.cleanup_job_list job_list],
              .exited⟩
          else ⟨{ s with job_list := job_list }, events ++ handled, .running⟩
      else if argv_at s.argv 0 ≠ none then
        let pid := inp.os.fork
        if pid = 0 then
          let r := main_child s inp.os
          ⟨s, events ++ [.fork] ++ r.1, .child r.2⟩
        else if pid > 0 then
          let r := main_parent s job_list pid shell_pgid inp.os
          ⟨r.1, events ++ [.fork] ++ r.2, .running⟩
        else ⟨s, events ++ [.fork, .perror "fork error"], .running⟩
      else ⟨s, events, .running⟩

/-- The `while (1)` loop of `main` over the inputs of its successive iterations;
when they are used up the loop is still running. -/
def main_loop (shell_pgid : Int) : Shell → List CycleInput → Step
  | s, [] => ⟨s, [], .running⟩
  | s, inp :: rest =>
    let r := cycle s shell_pgid inp
    match r.ctl with
    | .running =>
      let r2 := main_loop shell_pgid r.shell rest
      ⟨r2.shell, r.events ++ r2.events, r2.ctl⟩
    | _ => r

/-- Function `main` (sh.c 487-620).  `capacity` is the capacity of the table `init_job_list`
creates, `argv` the uninitialised contents of the array `argv`, `shell_pgid` the
value of `getpgrp()`. -/
def main (capacity : Nat) (argv : List (Option CStr)) (shell_pgid : Int)
    (inputs : List CycleInput) : Step :=
  let s : Shell :=
    { job_list := some (init_job_list capacity), next_jid := 1, argv := argv,
      command_path := none, in_file := none, out_file := none, append_flag := 0,
      foreground := 1 }
  let r := main_loop shell_pgid s inputs
  ⟨r.shell, [.init_job_list, .getpgrp, .signal .SIGINT .SIG_IGN, .signal .SIGTSTP .SIG_IGN,
    .signal .SIGTTOU .SIG_IGN] ++ r.events, r.ctl⟩

/-! ## Reading a list of calls -/

/-- The jid passed, when the call is `add_job`. -/
def added_jid : Event → Option Int
  | .add_job jid _ _ _ => some jid
  | _ => none

/-- The jids passed to `add_job`, in the order of the calls. -/
def added_jids (events : List Event) : List Int := events.filterMap added_jid

/-- Whether the call is `add_job`. -/
def is_add_job : Event → Bool
  | .add_job _ _ _ _ => true
  | _ => false

/-- Whether the call is `printf`. -/
def is_printf : Event → Bool
  | .printf _ _ => true
  | _ => false

/-- Whether the call is `waitpid`. -/
def is_waitpid : Event → Bool
  | .waitpid _ _ => true
  | _ => false

/-- Whether the call is `tcsetpgrp`. -/
def is_tcsetpgrp : Event → Bool
  | .tcsetpgrp _ => true
  | _ => false

/-- Whether the call is `cleanup_job_list`. -/
def is_cleanup : Event → Bool
  | .cleanup_job_list _ => true
  | _ => false

/-- Whether the call is `perror`, the diagnostic of a failed call. -/
def is_perror : Event → Bool
  | .perror _ => true
  | _ => false

/-- The calls without the `perror` diagnostics. -/
def without_perror (events : List Event) : List Event :=
  events.filter (fun e => !is_perror e)

/-- The calls of a `handle_builtin` result. -/
def builtin_events (r : Option (Int × Option job_list_t × List Event)) : List Event :=
  match r with
  | some r => r.2.2
  | none => []

/-- The jids `n, n + 1, ..., n + k - 1`. -/
def jid_seq (n : Int) : Nat → List Int
  | 0 => []
  | k + 1 => n :: jid_seq (n + 1) k

/-! ## Sample inputs -/

/-- An `argv` array whose slots are all `NULL`. -/
def argv_null : List (Option CStr) := List.replicate TOKEN_SIZE none

/-- Answers of an operating system where every call succeeds: `fork` returns the
child 100 to the parent, the files open as descriptors 3 and 4, and the child
waited for has exited with status 0. -/
def os_ok : OS :=
  { fork := 100, getpid := 100, setpgid := 0, kill := 0, tcsetpgrp_grant := 0, waitpid := 100,
    status := 0, tcsetpgrp_reclaim := 0, chdir := 0, link := 0, unlink := 0, open_in := 3,
    dup2_in := 0, open_out := 4, dup2_out := 1, execv := 0 }

/-- As `os_ok`, with the child waited for stopped by signal 20 (`SIGTSTP`):
status `0x147f`. -/
def os_stopped : OS := { os_ok with status := 5247 }

/-- As `os_ok`, with the output file failing to open. -/
def os_no_output : OS := { os_ok with open_out := -1 }

/-- As `os_ok`, for a later `fork` that returns the child 101. -/
def os_second : OS := { os_ok with fork := 101, getpid := 101, waitpid := 101 }

/-- The variables of the shell with the job table `job_list` and `next_jid`. -/
def shell_with (job_list : job_list_t) (next_jid foreground : Int) : Shell :=
  { job_list := some job_list, next_jid := next_jid, argv := argv_null, command_path := none,
    in_file := none, out_file := none, append_flag := 0, foreground := foreground }

/-- The input of an iteration that reaps no child and reads the line `text`. -/
def input_line (text : String) (os : OS) : CycleInput :=
  { reaped := [], bytes_read := text.length, buffer := text.toList, os := os }

/-- The input of a later iteration of a long session: the child 100 started before
is reaped, having exited with status 0, and the line `sleep 5 &` is read; `fork`
gives the pid 100 again. -/
def input_next_sleep : CycleInput :=
  { reaped := [(100, 0)], bytes_read := 10, buffer := "sleep 5 &\n".toList, os := os_ok }

/-- The variables of the shell after `sleep 5 &` was started as the job `jid`, the
only job of the table, with `next_jid` as given. -/
def shell_sleep (jid next_jid : Int) : Shell :=
  { job_list := some ⟨8, [⟨jid, 100, .RUNNING, some "sleep".toList⟩]⟩, next_jid := next_jid,
    argv := (argv_null.set 0 (some "sleep".toList)).set 1 (some "5".toList),
    command_path := some "sleep".toList, in_file := none, out_file := none, append_flag := 0,
    foreground := 0 }

/-- Answers for a foreground command whose `waitpid` fails (it returns -1, as it
does with `ECHILD` in a shell started with `SIGCHLD` ignored): `status` is not
written and still holds the stop status `0x147f` of the command before. -/
def os_wait_failed : OS :=
  { os_ok with fork := 101, getpid := 101, waitpid := -1, status := 5247 }

/-! ## The steps of a forked child -/

/-- The step of the child that a call belongs to: 0 is the creation of the process
group, 1 the claim of the terminal, 2 the reset of the signal dispositions, 3 the
redirection, 4 the replacement of the process image.  Diagnostics and `exit` belong
to no step. -/
def child_step : Event → Option Nat
  | .setpgid _ _ => some 0
  | .getpid => some 1
  | .tcsetpgrp _ => some 1
  | .signal _ _ => some 2
  | .sys_open _ _ => some 3
  | .dup2 _ _ => some 3
  | .close _ => some 3
  | .execv _ _ => some 4
  | _ => none

/-- The steps of a list of calls, in the order of the calls. -/
def child_steps (events : List Event) : List Nat := events.filterMap child_step

/-- The calls of a child whose group creation and terminal claim succeed, up to the
reset of the signal dispositions; `pid` is the value of `getpid()`. -/
def child_setup (foreground pid : Int) : List Event :=
  [.setpgid 0 0] ++ (if foreground ≠ 0 then [Event.getpid, .tcsetpgrp pid] else [])
  ++ [.signal .SIGINT .SIG_DFL, .signal .SIGTSTP .SIG_DFL, .signal .SIGTTOU .SIG_DFL,
    .signal .SIGQUIT .SIG_DFL]

/-- The calls of an input redirection that succeeds with the descriptor `fd`; none
when no input file was given. -/
def input_redirected (in_file : Option CStr) (fd : Int) : List Event :=
  match in_file with
  | none => []
  | some in_file => [.sys_open in_file [.O_RDONLY], .dup2 fd 0, .close fd]

/-- The flags `execute_command` opens the output file with. -/
def output_flags (append_flag : Int) : List OpenFlag :=
  if append_flag ≠ 0 then [.O_WRONLY, .O_CREAT, .O_APPEND] else [.O_WRONLY, .O_CREAT, .O_TRUNC]

/-- The calls of an output redirection that succeeds with the descriptor `fd`; none
when no output file was given. -/
def output_redirected (out_file : Option CStr) (append_flag fd : Int) : List Event :=
  match out_file with
  | none => []
  | some out_file => [.sys_open out_file (output_flags append_flag), .dup2 fd 1, .close fd]

/-- The variables of the shell after it has parsed the foreground line
`/bin/ls -l < in > out`. -/
def shell_ls : Shell :=
  (parse "/bin/ls -l < in > out\n".toList (shell_with (init_job_list 8) 1 1)).1

/-! ## Lemmas on C strings -/

theorem strcmp_eq_zero (a b : CStr) : strcmp a b = 0 ↔ a = b := by
  induction a generalizing b with
  | nil => cases b <;> simp [strcmp]
  | cons x xs ih =>
    cases b with
    | nil => simp [strcmp]
    | cons y ys =>
      by_cases h : x = y
      · simp [strcmp, h, ih]
      · by_cases h2 : x.toNat < y.toNat <;> simp [strcmp, h, h2]

theorem strchr_eq_none (s : CStr) (c : Char) : strchr s c = none ↔ c ∉ s := by
  induction s with
  | nil => simp [strchr]
  | cons x xs ih =>
    by_cases h : x = c
    · simp [strchr, h]
    · have h2 : ¬ c = x := fun e => h e.symm
      simp [strchr, h, h2, ih]

/-- C2: `is_builtin s` is 1 exactly when `s` has no `/` and is one of the seven
builtin names, compared exactly; any `s` containing `/` gives 0. -/
theorem is_builtin_iff (s : CStr) :
    (is_builtin s = 1 ↔
      ('/' ∉ s ∧ s ∈ ["cd".toList, "ln".toList, "rm".toList, "exit".toList,
        "jobs".toList, "fg".toList, "bg".toList])) ∧
    ('/' ∈ s → is_builtin s = 0) := by
  unfold is_builtin
  by_cases h : strchr s '/' = none
  · have h2 := (strchr_eq_none s '/').1 h
    simp only [h, ne_eq, not_true_eq_false, if_false, strcmp_eq_zero, List.mem_cons,
      List.mem_singleton, List.not_mem_nil, or_false]
    constructor
    · split_ifs with hc
      · exact ⟨fun _ => ⟨h2, hc⟩, fun _ => rfl⟩
      · exact ⟨fun h3 => absurd h3 (by decide), fun h3 => absurd h3.2 hc⟩
    · intro h4; exact absurd h4 h2
  · have h2 : '/' ∈ s := by
      by_contra hc
      exact h ((strchr_eq_none s '/').2 hc)
    simp [h, h2]

theorem is_builtin_iff_witness :
    '/' ∈ "/bin/cd".toList ∧ is_builtin "/bin/cd".toList = 0 :=
  ⟨by decide, (is_builtin_iff "/bin/cd".toList).2 (by decide)⟩

/-! ## Lemmas on wait statuses -/

theorem not_exited_of_signaled (status : Int) (h : WIFSIGNALED status = true) :
    WIFEXITED status = false := by
  simp only [WIFSIGNALED, WIFEXITED, WTERMSIG, signed_char, decide_eq_true_eq,
    decide_eq_false_iff_not] at *
  split at h <;> omega

theorem not_exited_of_stopped (status : Int) (h : WIFSTOPPED status = true) :
    WIFEXITED status = false := by
  simp only [WIFSTOPPED, WIFEXITED, WTERMSIG, decide_eq_true_eq, decide_eq_false_iff_not] at *
  omega

theorem not_signaled_of_stopped (status : Int) (h : WIFSTOPPED status = true) :
    WIFSIGNALED status = false := by
  simp only [WIFSTOPPED, WIFSIGNALED, signed_char, decide_eq_true_eq,
    decide_eq_false_iff_not] at *
  split <;> omega

theorem not_exited_of_continued (status : Int) (h : WIFCONTINUED status = true) :
    WIFEXITED status = false := by
  simp only [WIFCONTINUED, WIFEXITED, WTERMSIG, decide_eq_true_eq, decide_eq_false_iff_not] at *
  omega

theorem not_signaled_of_continued (status : Int) (h : WIFCONTINUED status = true) :
    WIFSIGNALED status = false := by
  simp only [WIFCONTINUED, WIFSIGNALED, signed_char, decide_eq_true_eq,
    decide_eq_false_iff_not] at *
  split <;> omega

theorem not_stopped_of_continued (status : Int) (h : WIFCONTINUED status = true) :
    WIFSTOPPED status = false := by
  simp only [WIFCONTINUED, WIFSTOPPED, decide_eq_true_eq, decide_eq_false_iff_not] at *
  omega

/-! ## Lemmas on the job table -/

theorem update_first_length (p : job → Bool) (state : process_state_t) (js : List job) :
    (update_first p state js).length = js.length := by
  induction js with
  | nil => rfl
  | cons j js ih => by_cases h : p j <;> simp [update_first, h, ih]

theorem update_first_any_jid (jid jid2 : Int) (state : process_state_t) (js : List job) :
    (update_first (fun j => decide (j.jid = jid)) state js).any (fun j => decide (j.jid = jid2))
      = js.any (fun j => decide (j.jid = jid2)) := by
  induction js with
  | nil => rfl
  | cons j js ih =>
    by_cases h : j.jid = jid
    · simp [update_first, h]
    · simp [update_first, h, ih]

theorem any_jid_of_get_job_pid (job_list : job_list_t) (jid : Int)
    (h : get_job_pid job_list jid ≠ -1) :
    job_list.entries.any (fun j => decide (j.jid = jid)) = true := by
  unfold get_job_pid at h
  cases hf : job_list.entries.find? (fun j => decide (j.jid = jid)) with
  | none => rw [hf] at h; exact absurd rfl h
  | some j =>
    have hm := List.mem_of_find?_eq_some hf
    have hp := List.find?_some hf
    exact List.any_eq_true.2 ⟨j, hm, hp⟩

/-! ## `fg` and `bg` on an unknown job -/

/-- C3: when `argv[1]` is `%N` and `get_job_pid` returns -1 for the jid that `atoi`
reads from `N` into an `int`, `handle_fg` (respectively `handle_bg`) only writes
`fg: no such job` (`bg: no such job`) to stderr: no kill, tcsetpgrp, waitpid, and
the job table is returned unchanged. -/
theorem handle_fg_bg_no_such_job (job_list : job_list_t) (argv : List (Option CStr))
    (shell_pgid : Int) (os : OS) (digits : CStr)
    (hargv : argv_at argv 1 = some ('%' :: digits))
    (hjob : get_job_pid job_list (atoi digits) = -1) :
    handle_fg job_list argv shell_pgid os
      = (1, job_list, [Event.fprintf_stderr "fg: no such job\n"]) ∧
    handle_bg job_list argv os = (1, job_list, [Event.fprintf_stderr "bg: no such job\n"]) := by
  constructor
  · simp [handle_fg, hargv, hjob]
  · simp [handle_bg, hargv, hjob]

theorem handle_fg_bg_no_such_job_witness :
    handle_fg (init_job_list 8) [some "fg".toList, some "%7".toList, none] 50 os_ok
      = (1, init_job_list 8, [Event.fprintf_stderr "fg: no such job\n"]) ∧
    handle_bg (init_job_list 8) [some "fg".toList, some "%7".toList, none] os_ok
      = (1, init_job_list 8, [Event.fprintf_stderr "bg: no such job\n"]) :=
  handle_fg_bg_no_such_job (init_job_list 8) [some "fg".toList, some "%7".toList, none] 50 os_ok
    "7".toList (by decide) (by decide)

theorem atoi_range (s : CStr) : -2147483648 ≤ atoi s ∧ atoi s ≤ 2147483647 := by
  unfold atoi c_int
  omega

theorem atoi_samples :
    atoi "7".toList = 7 ∧ atoi " -3x".toList = -3 ∧ atoi "2147483648".toList = -2147483648 ∧
    atoi "4294967297".toList = 1 ∧ atoi "99999999999999999999".toList = -1 := by
  decide

theorem get_job_pid_no_job (job_list : job_list_t) (jid : Int)
    (h : ∀ j ∈ job_list.entries, j.jid ≠ jid) : get_job_pid job_list jid = -1 := by
  unfold get_job_pid
  rw [List.find?_eq_none.2 (fun j hj => by simpa using h j hj)]

/-- The job named by `%4294967297` is job 1, the `int` that `atoi` returns: with job
1 in the table `fg` resumes it, and `fg %7` reports that there is no such job. -/
theorem handle_fg_reads_int :
    handle_fg ⟨8, [⟨1, 100, .STOPPED, some "sleep".toList⟩]⟩
        [some "fg".toList, some "%4294967297".toList, none] 50 os_ok =
      (1, ⟨8, []⟩,
        [Event.kill (-100) .SIGCONT, Event.tcsetpgrp 100, Event.update_job_jid 1 .RUNNING,
          Event.waitpid (-100) [.WUNTRACED], Event.tcsetpgrp 50, Event.remove_job_jid 1]) ∧
    handle_fg ⟨8, [⟨1, 100, .STOPPED, some "sleep".toList⟩]⟩
        [some "fg".toList, some "%7".toList, none] 50 os_ok =
      (1, ⟨8, [⟨1, 100, .STOPPED, some "sleep".toList⟩]⟩,
        [Event.fprintf_stderr "fg: no such job\n"]) := by
  refine ⟨?_, ?_⟩ <;> decide

/-! ## The background reaper -/

theorem update_first_of_not_any (p : job → Bool) (state : process_state_t) (js : List job)
    (h : js.any p = false) : update_first p state js = js := by
  induction js with
  | nil => rfl
  | cons j js ih =>
    rw [List.any_cons, Bool.or_eq_false_iff] at h
    simp [update_first, h.1, ih h.2]

theorem update_job_pid_table (job_list : job_list_t) (pid : Int) (state : process_state_t) :
    (update_job_pid job_list pid state).2 =
      ⟨job_list.capacity, update_first (fun j => decide (j.pid = pid)) state job_list.entries⟩ := by
  unfold update_job_pid
  cases h : job_list.entries.any (fun j => decide (j.pid = pid)) with
  | true => simp
  | false => simp [update_first_of_not_any _ _ _ h]

theorem remove_job_pid_table (job_list : job_list_t) (pid : Int) :
    (remove_job_pid job_list pid).2 =
      ⟨job_list.capacity, job_list.entries.eraseP (fun j => decide (j.pid = pid))⟩ := by
  unfold remove_job_pid
  cases h : job_list.entries.any (fun j => decide (j.pid = pid)) with
  | true => simp
  | false =>
    have hn : ∀ j ∈ job_list.entries, ¬ (fun j : job => decide (j.pid = pid)) j = true := by
      intro j hj hp
      have : job_list.entries.any (fun j => decide (j.pid = pid)) = true :=
        List.any_eq_true.2 ⟨j, hj, hp⟩
      rw [h] at this
      exact Bool.noConfusion this
    simp [List.eraseP_of_forall_not hn]

theorem update_first_identity (p : job → Bool) (state : process_state_t) (js : List job) :
    (update_first p state js).map (fun j => (j.jid, j.pid, j.command))
      = js.map (fun j => (j.jid, j.pid, j.command)) := by
  induction js with
  | nil => rfl
  | cons j js ih => by_cases h : p j <;> simp [update_first, h, ih]

/-- C4: `check_background_jobs` calls `waitpid` without blocking and, for a child
`(pid, status)` with `pid > 0`, takes the one action of the status and goes on with
the remaining results: exited, it prints the exit status and removes the job by
pid; killed by a signal, it prints the signal and removes the job by pid; stopped,
it prints the stop signal and updates the job to STOPPED; continued, it prints the
resumption and updates the job to RUNNING.  The jid printed is `get_job_jid` of the
pid.  When that child is the only one reported, the table the function leaves is
the table it was given with the first entry of that pid erased (exited, killed) or
set to the new state (stopped, continued), every entry keeping its place, jid, pid
and command in the latter case.  The loop ends at the first wait that reports no
child, with the table as it is and no further call. -/
theorem check_background_jobs_action (job_list : job_list_t) (pid status : Int)
    (rest : List Reaped) (hpid : pid > 0) :
    (WIFEXITED status = true →
      check_background_jobs job_list ((pid, status) :: rest) =
        ((check_background_jobs (remove_job_pid job_list pid).2 rest).1,
          [Event.waitpid (-1) [.WNOHANG, .WUNTRACED, .WCONTINUED],
            Event.printf "[%d] (%d) terminated with exit status %d\n"
              [get_job_jid job_list pid, pid, WEXITSTATUS status],
            Event.remove_job_pid pid]
          ++ (check_background_jobs (remove_job_pid job_list pid).2 rest).2) ∧
      check_background_jobs job_list [(pid, status)] =
        (⟨job_list.capacity, job_list.entries.eraseP (fun j => decide (j.pid = pid))⟩,
          [Event.waitpid (-1) [.WNOHANG, .WUNTRACED, .WCONTINUED],
            Event.printf "[%d] (%d) terminated with exit status %d\n"
              [get_job_jid job_list pid, pid, WEXITSTATUS status],
            Event.remove_job_pid pid,
            Event.waitpid (-1) [.WNOHANG, .WUNTRACED, .WCONTINUED]])) ∧
    (WIFSIGNALED status = true →
      check_background_jobs job_list ((pid, status) :: rest) =
        ((check_background_jobs (remove_job_pid job_list pid).2 rest).1,
          [Event.waitpid (-1) [.WNOHANG, .WUNTRACED, .WCONTINUED],
            Event.printf "[%d] (%d) terminated by signal %d\n"
              [get_job_jid job_list pid, pid, WTERMSIG status],
            Event.remove_job_pid pid]
          ++ (check_background_jobs (remove_job_pid job_list pid).2 rest).2) ∧
      check_background_jobs job_list [(pid, status)] =
        (⟨job_list.capacity, job_list.entries.eraseP (fun j => decide (j.pid = pid))⟩,
          [Event.waitpid (-1) [.WNOHANG, .WUNTRACED, .WCONTINUED],
            Event.printf "[%d] (%d) terminated by signal %d\n"
              [get_job_jid job_list pid, pid, WTERMSIG status],
            Event.remove_job_pid pid,
            Event.waitpid (-1) [.WNOHANG, .WUNTRACED, .WCONTINUED]])) ∧
    (WIFSTOPPED status = true →
      check_background_jobs job_list ((pid, status) :: rest) =
        ((check_background_jobs (update_job_pid job_list pid .STOPPED).2 rest).1,
          [Event.waitpid (-1) [.WNOHANG, .WUNTRACED, .WCONTINUED],
            Event.printf "[%d] (%d) suspended by signal %d\n"
              [get_job_jid job_list pid, pid, WSTOPSIG status],
            Event.update_job_pid pid .STOPPED]
          ++ (check_background_jobs (update_job_pid job_list pid .STOPPED).2 rest).2) ∧
      check_background_jobs job_list [(pid, status)] =
        (⟨job_list.capacity,
            update_first (fun j => decide (j.pid = pid)) .STOPPED job_list.entries⟩,
          [Event.waitpid (-1) [.WNOHANG, .WUNTRACED, .WCONTINUED],
            Event.printf "[%d] (%d) suspended by signal %d\n"
              [get_job_jid job_list pid, pid, WSTOPSIG status],
            Event.update_job_pid pid .STOPPED,
            Event.waitpid (-1) [.WNOHANG, .WUNTRACED, .WCONTINUED]]) ∧
      (check_background_jobs job_list [(pid, status)]).1.entries.map
          (fun j => (j.jid, j.pid, j.command))
        = job_list.entries.map (fun j => (j.jid, j.pid, j.command))) ∧
    (WIFCONTINUED status = true →
      check_background_jobs job_list ((pid, status) :: rest) =
        ((check_background_jobs (update_job_pid job_list pid .RUNNING).2 rest).1,
          [Event.waitpid (-1) [.WNOHANG, .WUNTRACED, .WCONTINUED],
            Event.printf "[%d] (%d) resumed\n" [get_job_jid job_list pid, pid],
            Event.update_job_pid pid .RUNNING]
          ++ (check_background_jobs (update_job_pid job_list pid .RUNNING).2 rest).2) ∧
      check_background_jobs job_list [(pid, status)] =
        (⟨job_list.capacity,
            update_first (fun j => decide (j.pid = pid)) .RUNNING job_list.entries⟩,
          [Event.waitpid (-1) [.WNOHANG, .WUNTRACED, .WCONTINUED],
            Event.printf "[%d] (%d) resumed\n" [get_job_jid job_list pid, pid],
            Event.update_job_pid pid .RUNNING,
            Event.waitpid (-1) [.WNOHANG, .WUNTRACED, .WCONTINUED]]) ∧
      (check_background_jobs job_list [(pid, status)]).1.entries.map
          (fun j => (j.jid, j.pid, j.command))
        = job_list.entries.map (fun j => (j.jid, j.pid, j.command))) ∧
    check_background_jobs job_list [] =
      (job_list, [Event.waitpid (-1) [.WNOHANG, .WUNTRACED, .WCONTINUED]]) ∧
    (∀ (pid0 status0 : Int) (rest0 : List Reaped), pid0 ≤ 0 →
      check_background_jobs job_list ((pid0, status0) :: rest0) =
        (job_list, [Event.waitpid (-1) [.WNOHANG, .WUNTRACED, .WCONTINUED]])) := by
  have hcons : ∀ rest : List Reaped,
      check_background_jobs job_list ((pid, status) :: rest) =
        if WIFEXITED status = true then
          ((check_background_jobs (remove_job_pid job_list pid).2 rest).1,
            [Event.waitpid (-1) [.WNOHANG, .WUNTRACED, .WCONTINUED],
              Event.printf "[%d] (%d) terminated with exit status %d\n"
                [get_job_jid job_list pid, pid, WEXITSTATUS status],
              Event.remove_job_pid pid]
            ++ (check_background_jobs (remove_job_pid job_list pid).2 rest).2)
        else if WIFSIGNALED status = true then
          ((check_background_jobs (remove_job_pid job_list pid).2 rest).1,
            [Event.waitpid (-1) [.WNOHANG, .WUNTRACED, .WCONTINUED],
              Event.printf "[%d] (%d) terminated by signal %d\n"
                [get_job_jid job_list pid, pid, WTERMSIG status],
              Event.remove_job_pid pid]
            ++ (check_background_jobs (remove_job_pid job_list pid).2 rest).2)
        else if WIFSTOPPED status = true then
          ((check_background_jobs (update_job_pid job_list pid .STOPPED).2 rest).1,
            [Event.waitpid (-1) [.WNOHANG, .WUNTRACED, .WCONTINUED],
              Event.printf "[%d] (%d) suspended by signal %d\n"
                [get_job_jid job_list pid, pid, WSTOPSIG status],
              Event.update_job_pid pid .STOPPED]
            ++ (check_background_jobs (update_job_pid job_list pid .STOPPED).2 rest).2)
        else if WIFCONTINUED status = true then
          ((check_background_jobs (update_job_pid job_list pid .RUNNING).2 rest).1,
            [Event.waitpid (-1) [.WNOHANG, .WUNTRACED, .WCONTINUED],
              Event.printf "[%d] (%d) resumed\n" [get_job_jid job_list pid, pid],
              Event.update_job_pid pid .RUNNING]
            ++ (check_background_jobs (update_job_pid job_list pid .RUNNING).2 rest).2)
        else
          ((check_background_jobs job_list rest).1,
            [Event.waitpid (-1) [.WNOHANG, .WUNTRACED, .WCONTINUED]]
            ++ (check_background_jobs job_list rest).2) := by
    intro rest
    rw [check_background_jobs, if_pos hpid]
  have hnil : ∀ job_list : job_list_t, check_background_jobs job_list [] =
      (job_list, [Event.waitpid (-1) [.WNOHANG, .WUNTRACED, .WCONTINUED]]) := by
    intro job_list
    rw [check_background_jobs]
  refine ⟨?_, ?_, ?_, ?_, hnil job_list, ?_⟩
  · intro h
    refine ⟨?_, ?_⟩
    · rw [hcons, if_pos h]
    · rw [hcons, if_pos h, hnil, remove_job_pid_table]
      rfl
  · intro h
    have he := not_exited_of_signaled status h
    refine ⟨?_, ?_⟩
    · rw [hcons, if_neg (by simp [he]), if_pos h]
    · rw [hcons, if_neg (by simp [he]), if_pos h, hnil, remove_job_pid_table]
      rfl
  · intro h
    have he := not_exited_of_stopped status h
    have hk := not_signaled_of_stopped status h
    have hrun : check_background_jobs job_list [(pid, status)] =
        (⟨job_list.capacity,
            update_first (fun j => decide (j.pid = pid)) .STOPPED job_list.entries⟩,
          [Event.waitpid (-1) [.WNOHANG, .WUNTRACED, .WCONTINUED],
            Event.printf "[%d] (%d) suspended by signal %d\n"
              [get_job_jid job_list pid, pid, WSTOPSIG status],
            Event.update_job_pid pid .STOPPED,
            Event.waitpid (-1) [.WNOHANG, .WUNTRACED, .WCONTINUED]]) := by
      rw [hcons, if_neg (by simp [he]), if_neg (by simp [hk]), if_pos h, hnil,
        update_job_pid_table]
      rfl
    refine ⟨?_, hrun, ?_⟩
    · rw [hcons, if_neg (by simp [he]), if_neg (by simp [hk]), if_pos h]
    · rw [hrun]
      exact update_first_identity _ _ _
  · intro h
    have he := not_exited_of_continued status h
    have hk := not_signaled_of_continued status h
    have hs := not_stopped_of_continued status h
    have hrun : check_background_jobs job_list [(pid, status)] =
        (⟨job_list.capacity,
            update_first (fun j => decide (j.pid = pid)) .RUNNING job_list.entries⟩,
          [Event.waitpid (-1) [.WNOHANG, .WUNTRACED, .WCONTINUED],
            Event.printf "[%d] (%d) resumed\n" [get_job_jid job_list pid, pid],
            Event.update_job_pid pid .RUNNING,
            Event.waitpid (-1) [.WNOHANG, .WUNTRACED, .WCONTINUED]]) := by
      rw [hcons, if_neg (by simp [he]), if_neg (by simp [hk]), if_neg (by simp [hs]), if_pos h,
        hnil, update_job_pid_table]
      rfl
    refine ⟨?_, hrun, ?_⟩
    · rw [hcons, if_neg (by simp [he]), if_neg (by simp [hk]), if_neg (by simp [hs]), if_pos h]
    · rw [hrun]
      exact update_first_identity _ _ _
  · intro pid0 status0 rest0 h0
    rw [check_background_jobs, if_neg (by omega)]

/-- A call of the reaper that is told of three children: 100 stopped by signal 20,
101 exited with status 2, 102 killed by signal 9, and then of no further child. -/
theorem check_background_jobs_action_witness :
    (100 : Int) > 0 ∧ WIFSTOPPED 5247 = true ∧
    check_background_jobs
        ⟨8, [⟨1, 100, .RUNNING, some "sleep".toList⟩, ⟨2, 101, .RUNNING, some "ls".toList⟩,
          ⟨3, 102, .RUNNING, some "cat".toList⟩]⟩
        [(100, 5247), (101, 512), (102, 9), (0, 0)] =
      (⟨8, [⟨1, 100, .STOPPED, some "sleep".toList⟩]⟩,
        [Event.waitpid (-1) [.WNOHANG, .WUNTRACED, .WCONTINUED],
          Event.printf "[%d] (%d) suspended by signal %d\n" [1, 100, 20],
          Event.update_job_pid 100 .STOPPED,
          Event.waitpid (-1) [.WNOHANG, .WUNTRACED, .WCONTINUED],
          Event.printf "[%d] (%d) terminated with exit status %d\n" [2, 101, 2],
          Event.remove_job_pid 101,
          Event.waitpid (-1) [.WNOHANG, .WUNTRACED, .WCONTINUED],
          Event.printf "[%d] (%d) terminated by signal %d\n" [3, 102, 9],
          Event.remove_job_pid 102,
          Event.waitpid (-1) [.WNOHANG, .WUNTRACED, .WCONTINUED]]) :=
  ⟨by decide, by decide,
    ((check_background_jobs_action
      ⟨8, [⟨1, 100, .RUNNING, some "sleep".toList⟩, ⟨2, 101, .RUNNING, some "ls".toList⟩,
        ⟨3, 102, .RUNNING, some "cat".toList⟩]⟩
      100 5247 [(101, 512), (102, 9), (0, 0)] (by decide)).2.2.1 (by decide)).1⟩

/-! ## Job ids -/

theorem added_jids_append (a b : List Event) :
    added_jids (a ++ b) = added_jids a ++ added_jids b := by
  simp [added_jids]

theorem added_jids_nil : added_jids [] = [] := rfl

theorem added_jids_cons (e : Event) (rest : List Event) :
    added_jids (e :: rest) = (added_jid e).toList ++ added_jids rest := by
  cases h : added_jid e <;> simp [added_jids, List.filterMap_cons, h]

theorem added_jids_check_background_jobs (job_list : job_list_t) (results : List Reaped) :
    added_jids (check_background_jobs job_list results).2 = [] := by
  induction results generalizing job_list with
  | nil => simp [check_background_jobs, added_jids_cons, added_jids_nil, added_jid]
  | cons r rest ih =>
    obtain ⟨pid, status⟩ := r
    unfold check_background_jobs
    simp only [apply_ite Prod.snd, apply_ite added_jids, added_jids_append, added_jids_cons,
      added_jids_nil, added_jid, Option.toList, List.append_nil, List.nil_append, ih, ite_self]

theorem parse_loop_keeps (toks : List CStr) (argc : Nat) (s : Shell) :
    (∀ s2 events, parse_loop toks argc s = .returned s2 events →
      s2.next_jid = s.next_jid ∧ s2.job_list = s.job_list ∧ added_jids events = []) ∧
    (∀ s2 argc2, parse_loop toks argc s = .finished s2 argc2 →
      s2.next_jid = s.next_jid ∧ s2.job_list = s.job_list) ∧
    (∀ s2, parse_loop toks argc s = .overflowed s2 →
      s2.next_jid = s.next_jid ∧ s2.job_list = s.job_list) := by
  induction toks, argc, s using parse_loop.induct <;>
    (rw [parse_loop.eq_def]
     simp_all [added_jids_cons, added_jids_nil, added_jid, Nat.not_le_of_lt])

theorem parse_keeps (buffer : CStr) (s : Shell) :
    (parse buffer s).1.next_jid = s.next_jid ∧ (parse buffer s).1.job_list = s.job_list ∧
      added_jids (parse buffer s).2.1 = [] := by
  unfold parse
  have h := parse_loop_keeps (strtok_all buffer []) 0
    { s with in_file := none, out_file := none, append_flag := 0 }
  cases hp : parse_loop (strtok_all buffer []) 0
      { s with in_file := none, out_file := none, append_flag := 0 } with
  | returned s2 events =>
    have := h.1 s2 events hp
    simpa using this
  | overflowed s2 =>
    have := h.2.2 s2 hp
    simpa [added_jids_nil] using this
  | finished s2 argc2 =>
    have := h.2.1 s2 argc2 hp
    simp only []
    split_ifs <;> simp [added_jids_nil, this]

theorem added_jids_handle_fg (job_list : job_list_t) (argv : List (Option CStr))
    (shell_pgid : Int) (os : OS) :
    added_jids (handle_fg job_list argv shell_pgid os).2.2 = [] := by
  unfold handle_fg
  cases argv_at argv 1 with
  | none => simp [added_jids_cons, added_jids_nil, added_jid]
  | some jid_str =>
    simp only [apply_ite Prod.snd, apply_ite added_jids, added_jids_append, added_jids_cons,
      added_jids_nil, added_jid, Option.toList, List.append_nil, List.nil_append, ite_self]

theorem added_jids_handle_bg (job_list : job_list_t) (argv : List (Option CStr)) (os : OS) :
    added_jids (handle_bg job_list argv os).2.2 = [] := by
  unfold handle_bg
  cases argv_at argv 1 with
  | none => simp [added_jids_cons, added_jids_nil, added_jid]
  | some jid_str =>
    simp only [apply_ite Prod.snd, apply_ite added_jids, added_jids_append, added_jids_cons,
      added_jids_nil, added_jid, Option.toList, List.append_nil, List.nil_append, ite_self]

theorem builtin_events_some (r : Int × Option job_list_t × List Event) :
    builtin_events (some r) = r.2.2 := rfl

theorem added_jids_handle_builtin (job_list : job_list_t) (argv : List (Option CStr))
    (shell_pgid : Int) (os : OS) :
    added_jids (builtin_events (handle_builtin job_list argv shell_pgid os)) = [] := by
  unfold handle_builtin
  cases argv_at argv 0 with
  | none => rfl
  | some argv0 =>
    cases argv_at argv 1 <;>
    simp only [apply_ite builtin_events, apply_ite added_jids, builtin_events_some,
      added_jids_append,
      added_jids_cons, added_jids_nil, added_jid, Option.toList, List.append_nil,
      List.nil_append, added_jids_handle_fg, added_jids_handle_bg, ite_self]

theorem added_jids_redirect_input (in_file : Option CStr) (os : OS) :
    added_jids (redirect_input in_file os).1 = [] := by
  unfold redirect_input
  cases in_file <;>
  simp only [apply_ite Prod.fst, apply_ite added_jids, added_jids_append, added_jids_cons,
    added_jids_nil, added_jid, Option.toList, List.append_nil, List.nil_append, ite_self]

theorem added_jids_redirect_output (out_file : Option CStr) (append_flag : Int) (os : OS) :
    added_jids (redirect_output out_file append_flag os).1 = [] := by
  unfold redirect_output
  cases out_file <;>
  simp only [apply_ite Prod.fst, apply_ite added_jids, added_jids_append, added_jids_cons,
    added_jids_nil, added_jid, Option.toList, List.append_nil, List.nil_append, ite_self]

theorem added_jids_execute_command (command_path : Option CStr) (argv : List (Option CStr))
    (in_file out_file : Option CStr) (append_flag : Int) (os : OS) :
    added_jids (execute_command command_path argv in_file out_file append_flag os).1 = [] := by
  unfold execute_command
  cases command_path <;>
  simp only [apply_ite Prod.fst, apply_ite added_jids, added_jids_append, added_jids_cons,
    added_jids_nil, added_jid, Option.toList, List.append_nil, List.nil_append,
    added_jids_redirect_input, added_jids_redirect_output, ite_self]

theorem added_jids_main_child (s : Shell) (os : OS) : added_jids (main_child s os).1 = [] := by
  unfold main_child
  have h := added_jids_execute_command s.command_path s.argv s.in_file s.out_file
    s.append_flag os
  rcases hx : execute_command s.command_path s.argv s.in_file s.out_file s.append_flag os
    with ⟨executed, _ | e⟩ <;>
  (rw [hx] at h
   simp only [apply_ite Prod.fst, apply_ite added_jids, added_jids_append, added_jids_cons,
    added_jids_nil, added_jid, Option.toList, List.append_nil, List.nil_append, h, ite_self])

theorem main_parent_jids (s : Shell) (job_list : job_list_t) (pid shell_pgid : Int) (os : OS) :
    (added_jids (main_parent s job_list pid shell_pgid os).2 = [] ∧
      (main_parent s job_list pid shell_pgid os).1.next_jid = s.next_jid) ∨
    (added_jids (main_parent s job_list pid shell_pgid os).2 = [c_int s.next_jid] ∧
      (main_parent s job_list pid shell_pgid os).1.next_jid = c_int (s.next_jid + 1)) := by
  unfold main_parent
  by_cases hf : s.foreground ≠ 0
  · rw [if_pos hf]
    by_cases hs : WIFSTOPPED os.status = true
    · right
      simp only [hs, if_true, apply_ite added_jids, added_jids_append, added_jids_cons,
        added_jids_nil, added_jid, Option.toList, List.append_nil, List.nil_append, ite_self,
        and_self]
    · left
      simp only [hs, Bool.false_eq_true, if_false, apply_ite Prod.snd, apply_ite Prod.fst,
        apply_ite added_jids, added_jids_append, added_jids_cons, added_jids_nil, added_jid,
        Option.toList, List.append_nil, List.nil_append, ite_self, and_self]
  · rw [if_neg hf]
    right
    simp only [apply_ite added_jids, added_jids_append, added_jids_cons,
      added_jids_nil, added_jid, Option.toList, List.append_nil, List.nil_append, ite_self,
      and_self]

theorem cycle_jids (s : Shell) (shell_pgid : Int) (inp : CycleInput) :
    (added_jids (cycle s shell_pgid inp).events = [] ∧
      (cycle s shell_pgid inp).shell.next_jid = s.next_jid) ∨
    (added_jids (cycle s shell_pgid inp).events = [c_int s.next_jid] ∧
      (cycle s shell_pgid inp).shell.next_jid = c_int (s.next_jid + 1)) := by
  unfold cycle
  cases s.job_list with
  | none => left; exact ⟨rfl, rfl⟩
  | some job_list =>
    dsimp only
    have hr := added_jids_check_background_jobs job_list inp.reaped
    generalize check_background_jobs job_list inp.reaped = reaped at hr ⊢
    have hread : added_jids (reaped.2 ++ [Event.read]
        ++ (if inp.bytes_read < 0 then [Event.perror "read error"] else [])) = [] := by
      simp only [apply_ite added_jids, added_jids_append, added_jids_cons, added_jids_nil,
        added_jid, Option.toList, List.append_nil, hr, ite_self]
    generalize reaped.2 ++ [Event.read]
      ++ (if inp.bytes_read < 0 then [Event.perror "read error"] else []) = events at hread ⊢
    by_cases h1 : handle_input inp.buffer inp.bytes_read = 1
    · rw [if_pos h1]
      left
      simp [added_jids_append, added_jids_cons, added_jids_nil, added_jid, hread]
    · rw [if_neg h1]
      by_cases h2 : handle_input inp.buffer inp.bytes_read = 2
      · rw [if_pos h2]
        left
        exact ⟨hread, rfl⟩
      · rw [if_neg h2]
        have hp := parse_keeps inp.buffer
          { job_list := some reaped.1, next_jid := s.next_jid, argv := s.argv,
            command_path := none, in_file := none, out_file := none, append_flag := 0,
            foreground := s.foreground }
        generalize parse inp.buffer
          { job_list := some reaped.1, next_jid := s.next_jid, argv := s.argv,
            command_path := none, in_file := none, out_file := none, append_flag := 0,
            foreground := s.foreground } = parsed at hp ⊢
        obtain ⟨hp1, _, hp3⟩ := hp
        simp only [] at hp1
        by_cases ho : parsed.2.2 = true
        · rw [if_pos ho]
          left
          simp [added_jids_append, hread, hp3, hp1]
        rw [if_neg ho]
        by_cases hb : parsed.1.command_path.any
            (fun command_path => decide (is_builtin command_path ≠ 0)) = true
        · rw [if_pos hb]
          have hh := added_jids_handle_builtin reaped.1 parsed.1.argv shell_pgid inp.os
          cases hx : handle_builtin reaped.1 parsed.1.argv shell_pgid inp.os with
          | none =>
            left
            simp [added_jids_append, hread, hp3, hp1]
          | some r =>
            obtain ⟨builtin_result, job_list2, handled⟩ := r
            rw [hx, builtin_events_some] at hh
            simp only [] at hh
            dsimp only
            left
            by_cases he : builtin_result = -1
            · rw [if_pos he]
              simp [added_jids_append, added_jids_cons, added_jids_nil, added_jid, hread, hp3,
                hp1, hh]
            · rw [if_neg he]
              simp [added_jids_append, hread, hp3, hp1, hh]
        · rw [if_neg hb]
          by_cases ha : argv_at parsed.1.argv 0 ≠ none
          · rw [if_pos ha]
            by_cases hc : inp.os.fork = 0
            · rw [if_pos hc]
              left
              simp [added_jids_append, added_jids_cons, added_jids_nil, added_jid, hread, hp3,
                hp1, added_jids_main_child]
            · rw [if_neg hc]
              by_cases hd : inp.os.fork > 0
              · rw [if_pos hd]
                rcases main_parent_jids parsed.1 reaped.1 inp.os.fork shell_pgid inp.os
                  with ⟨hm1, hm2⟩ | ⟨hm1, hm2⟩
                · left
                  simp [added_jids_append, added_jids_cons, added_jids_nil, added_jid, hread,
                    hp3, hp1, hm1, hm2]
                · right
                  simp [added_jids_append, added_jids_cons, added_jids_nil, added_jid, hread,
                    hp3, hp1, hm1, hm2]
              · rw [if_neg hd]
                left
                simp [added_jids_append, added_jids_cons, added_jids_nil, added_jid, hread,
                  hp3, hp1]
          · rw [if_neg ha]
            left
            simp [added_jids_append, hread, hp3, hp1]

theorem jid_seq_append (n : Int) (a b : Nat) :
    jid_seq n (a + b) = jid_seq n a ++ jid_seq (n + a) b := by
  induction a generalizing n with
  | zero => simp [jid_seq]
  | succ a ih =>
    rw [Nat.succ_add]
    simp only [jid_seq, List.cons_append, ih (n + 1)]
    have h : n + 1 + (a : Int) = n + ((a + 1 : Nat) : Int) := by push_cast; omega
    rw [h]

theorem jid_seq_length (n : Int) (k : Nat) : (jid_seq n k).length = k := by
  induction k generalizing n with
  | zero => rfl
  | succ k ih => simp [jid_seq, ih]

theorem jid_seq_bounds (n : Int) (k : Nat) : ∀ jid ∈ jid_seq n k, n ≤ jid ∧ jid < n + k := by
  induction k generalizing n with
  | zero => simp [jid_seq]
  | succ k ih =>
    intro jid h
    simp only [jid_seq, List.mem_cons] at h
    rcases h with h | h
    · subst h; push_cast; omega
    · have := ih (n + 1) jid h
      push_cast
      omega

theorem jid_seq_pairwise (n : Int) (k : Nat) : List.Pairwise (· < ·) (jid_seq n k) := by
  induction k generalizing n with
  | zero => simp [jid_seq]
  | succ k ih =>
    simp only [jid_seq, List.pairwise_cons]
    refine ⟨?_, ih (n + 1)⟩
    intro jid h
    have := (jid_seq_bounds (n + 1) k jid h).1
    omega

theorem c_int_of_range (n : Int) (h1 : -2147483648 ≤ n) (h2 : n < 2147483648) :
    c_int n = n := by
  unfold c_int
  omega

theorem c_int_add (a b : Int) : c_int (c_int a + b) = c_int (a + b) := by
  unfold c_int
  omega

theorem map_c_int_jid_seq (n : Int) (k : Nat) :
    (jid_seq (c_int n) k).map c_int = (jid_seq n k).map c_int := by
  induction k generalizing n with
  | zero => rfl
  | succ k ih =>
    simp only [jid_seq, List.map_cons]
    rw [← ih (c_int n + 1), ← ih (n + 1), c_int_add]
    congr 1
    unfold c_int
    omega

theorem main_loop_jids (shell_pgid : Int) (s : Shell) (inputs : List CycleInput) :
    ∃ k : Nat,
      added_jids (main_loop shell_pgid s inputs).events = (jid_seq s.next_jid k).map c_int ∧
      ((k = 0 ∧ (main_loop shell_pgid s inputs).shell.next_jid = s.next_jid) ∨
        (0 < k ∧ (main_loop shell_pgid s inputs).shell.next_jid = c_int (s.next_jid + k))) := by
  induction inputs generalizing s with
  | nil => exact ⟨0, rfl, Or.inl ⟨rfl, rfl⟩⟩
  | cons inp rest ih =>
    have hc := cycle_jids s shell_pgid inp
    unfold main_loop
    dsimp only
    cases hctl : (cycle s shell_pgid inp).ctl with
    | running =>
      dsimp only
      obtain ⟨k, hk1, hk2⟩ := ih (cycle s shell_pgid inp).shell
      rcases hc with ⟨h1, h2⟩ | ⟨h1, h2⟩
      · refine ⟨k, ?_, ?_⟩
        · rw [added_jids_append, h1, hk1, h2]; rfl
        · rw [h2] at hk2; exact hk2
      · refine ⟨k + 1, ?_, Or.inr ⟨Nat.succ_pos k, ?_⟩⟩
        · rw [added_jids_append, h1, hk1, h2, map_c_int_jid_seq]
          rfl
        · rcases hk2 with ⟨hk, hn⟩ | ⟨_, hn⟩
          · rw [hn, h2, hk]; rfl
          · rw [hn, h2, c_int_add]
            congr 1
            push_cast
            omega
    | exited =>
      dsimp only
      rcases hc with ⟨h1, h2⟩ | ⟨h1, h2⟩
      · exact ⟨0, h1, Or.inl ⟨rfl, h2⟩⟩
      · exact ⟨1, h1, Or.inr ⟨Nat.one_pos, h2⟩⟩
    | child e =>
      dsimp only
      rcases hc with ⟨h1, h2⟩ | ⟨h1, h2⟩
      · exact ⟨0, h1, Or.inl ⟨rfl, h2⟩⟩
      · exact ⟨1, h1, Or.inr ⟨Nat.one_pos, h2⟩⟩
    | fault =>
      dsimp only
      rcases hc with ⟨h1, h2⟩ | ⟨h1, h2⟩
      · exact ⟨0, h1, Or.inl ⟨rfl, h2⟩⟩
      · exact ⟨1, h1, Or.inr ⟨Nat.one_pos, h2⟩⟩

theorem main_added_jids (capacity : Nat) (argv : List (Option CStr)) (shell_pgid : Int)
    (inputs : List CycleInput) :
    ∃ k : Nat,
      added_jids (main capacity argv shell_pgid inputs).events = (jid_seq 1 k).map c_int ∧
      (main capacity argv shell_pgid inputs).shell.next_jid = c_int (1 + k) := by
  obtain ⟨k, hk1, hk2⟩ := main_loop_jids shell_pgid
    { job_list := some (init_job_list capacity), next_jid := 1, argv := argv,
      command_path := none, in_file := none, out_file := none, append_flag := 0,
      foreground := 1 } inputs
  refine ⟨k, ?_, ?_⟩
  · simp only [main, added_jids_append, added_jids_cons, added_jids_nil, added_jid,
      Option.toList, List.nil_append, hk1]
  · rcases hk2 with ⟨hk, hn⟩ | ⟨_, hn⟩
    · simp only [main, hn, hk]
      rfl
    · simp only [main, hn]

theorem map_c_int_small (k : Nat) (hk : k < 2147483647) :
    (jid_seq 1 k).map c_int = jid_seq 1 k := by
  have h : ∀ jid ∈ jid_seq 1 k, c_int jid = jid := by
    intro jid hj
    have := jid_seq_bounds 1 k jid hj
    exact c_int_of_range jid (by omega) (by omega)
  calc (jid_seq 1 k).map c_int = (jid_seq 1 k).map id := List.map_congr_left h
    _ = jid_seq 1 k := List.map_id _

/-- C5: in every run of `main` in which `add_job` is called fewer than `2^31 - 1`
times, the jids passed to `add_job` are 1, 2, 3, ... in the order of the calls:
they are positive, start at 1, each is strictly greater than the ones before, and
`next_jid` is strictly greater than all of them. -/
theorem main_jids_increasing (capacity : Nat) (argv : List (Option CStr)) (shell_pgid : Int)
    (inputs : List CycleInput)
    (hfew : (added_jids (main capacity argv shell_pgid inputs).events).length < 2147483647) :
    added_jids (main capacity argv shell_pgid inputs).events
      = jid_seq 1 (added_jids (main capacity argv shell_pgid inputs).events).length ∧
    List.Pairwise (· < ·) (added_jids (main capacity argv shell_pgid inputs).events) ∧
    (∀ jid ∈ added_jids (main capacity argv shell_pgid inputs).events,
      0 < jid ∧ jid < (main capacity argv shell_pgid inputs).shell.next_jid) := by
  obtain ⟨k, he, hn⟩ := main_added_jids capacity argv shell_pgid inputs
  have hk : k < 2147483647 := by
    rw [he, List.length_map, jid_seq_length] at hfew
    exact hfew
  rw [map_c_int_small k hk] at he
  rw [c_int_of_range (1 + k) (by omega) (by omega)] at hn
  rw [he, hn, jid_seq_length]
  refine ⟨rfl, jid_seq_pairwise 1 k, ?_⟩
  intro jid h
  have := jid_seq_bounds 1 k jid h
  omega

theorem two_sleeps_length :
    (added_jids (main 8 argv_null 50
        [input_line "sleep 5 &\n" os_ok, input_line "sleep 6 &\n" os_second]).events).length
      = 2 := by
  decide!

theorem main_jids_increasing_witness :
    (added_jids (main 8 argv_null 50
        [input_line "sleep 5 &\n" os_ok, input_line "sleep 6 &\n" os_second]).events).length
      < 2147483647 ∧
    added_jids (main 8 argv_null 50
        [input_line "sleep 5 &\n" os_ok, input_line "sleep 6 &\n" os_second]).events
      = jid_seq 1 (added_jids (main 8 argv_null 50
        [input_line "sleep 5 &\n" os_ok, input_line "sleep 6 &\n" os_second]).events).length ∧
    List.Pairwise (· < ·) (added_jids (main 8 argv_null 50
        [input_line "sleep 5 &\n" os_ok, input_line "sleep 6 &\n" os_second]).events) :=
  ⟨by rw [two_sleeps_length]; omega,
    (main_jids_increasing 8 argv_null 50
      [input_line "sleep 5 &\n" os_ok, input_line "sleep 6 &\n" os_second]
      (by rw [two_sleeps_length]; omega)).1,
    (main_jids_increasing 8 argv_null 50
      [input_line "sleep 5 &\n" os_ok, input_line "sleep 6 &\n" os_second]
      (by rw [two_sleeps_length]; omega)).2.1⟩

/-! ## The parent branch of `main` -/

theorem filter_cons_eq (p : Event → Bool) (e : Event) (rest : List Event) :
    (e :: rest).filter p = (if p e = true then [e] else []) ++ rest.filter p := by
  by_cases h : p e = true <;> simp [List.filter_cons, h]

theorem c_int_succ_pred (n : Int) : c_int (c_int (n + 1) - 1) = c_int n := by
  unfold c_int
  omega

theorem main_parent_background (s : Shell) (job_list : job_list_t) (pid shell_pgid : Int)
    (os : OS) (hf : s.foreground = 0) :
    main_parent s job_list pid shell_pgid os =
      ({ s with
          job_list := some (add_job job_list (c_int s.next_jid) pid .RUNNING s.command_path).2
          next_jid := c_int (s.next_jid + 1) },
        [Event.setpgid pid pid]
        ++ (if os.setpgid = -1 then [Event.perror "setpgid error in parent process"] else [])
        ++ [Event.add_job (c_int s.next_jid) pid .RUNNING s.command_path,
          Event.printf "[%d] (%d)\n" [c_int s.next_jid, pid]]) := by
  unfold main_parent
  rw [if_neg (by simp [hf])]

theorem main_parent_stopped (s : Shell) (job_list : job_list_t) (pid shell_pgid : Int)
    (os : OS) (hf : s.foreground ≠ 0) (hs : WIFSTOPPED os.status = true) :
    main_parent s job_list pid shell_pgid os =
      ({ s with
          job_list := some (add_job job_list (c_int s.next_jid) pid .STOPPED s.command_path).2
          next_jid := c_int (s.next_jid + 1) },
        [Event.setpgid pid pid]
        ++ (if os.setpgid = -1 then [Event.perror "setpgid error in parent process"] else [])
        ++ [Event.tcsetpgrp pid]
        ++ (if os.tcsetpgrp_grant = -1 then [Event.perror "tcsetpgrp error in parent process"]
          else [])
        ++ [Event.waitpid pid [.WUNTRACED]]
        ++ (if os.waitpid = -1 then [Event.perror "wait error"] else [])
        ++ [Event.add_job (c_int s.next_jid) pid .STOPPED s.command_path,
          Event.printf "[%d] (%d) suspended by signal %d\n"
            [c_int s.next_jid, pid, WSTOPSIG os.status]]
        ++ ([Event.tcsetpgrp shell_pgid]
          ++ (if os.tcsetpgrp_reclaim = -1 then
            [Event.perror "tcsetpgrp error returning control to shell"] else []))) := by
  unfold main_parent
  rw [if_pos hf]
  dsimp only
  rw [if_pos hs, c_int_succ_pred]

theorem main_parent_not_stopped (s : Shell) (job_list : job_list_t) (pid shell_pgid : Int)
    (os : OS) (hf : s.foreground ≠ 0) (hs : WIFSTOPPED os.status = false) :
    main_parent s job_list pid shell_pgid os =
      (s, [Event.setpgid pid pid]
        ++ (if os.setpgid = -1 then [Event.perror "setpgid error in parent process"] else [])
        ++ [Event.tcsetpgrp pid]
        ++ (if os.tcsetpgrp_grant = -1 then [Event.perror "tcsetpgrp error in parent process"]
          else [])
        ++ [Event.waitpid pid [.WUNTRACED]]
        ++ (if os.waitpid = -1 then [Event.perror "wait error"] else [])
        ++ (if WIFSIGNALED os.status = true then
          [Event.printf "(%d) terminated by signal %d\n" [pid, WTERMSIG os.status]] else [])
        ++ ([Event.tcsetpgrp shell_pgid]
          ++ (if os.tcsetpgrp_reclaim = -1 then
            [Event.perror "tcsetpgrp error returning control to shell"] else []))) := by
  unfold main_parent
  rw [if_pos hf]
  dsimp only
  rw [if_neg (by simp [hs])]
  by_cases hk : WIFSIGNALED os.status = true
  · rw [if_pos hk, if_pos hk]
  · rw [if_neg hk, if_neg hk, List.append_nil]

/-- The parent branch of `main` decides on `foreground` and on the word in `status`
alone, whether `waitpid` wrote it or not.  For a background command it makes no
`waitpid` call and inserts one RUNNING entry under `next_jid`.  For a foreground
command it calls `waitpid` once on the child and inserts one STOPPED entry under
`next_jid` exactly when `status` reads as a stop; when `status` reads as a normal
exit or a death by signal there is no `add_job` call and the variables, `next_jid`
and the job table among them, are unchanged. -/
theorem main_parent_inserts (s : Shell) (job_list : job_list_t) (pid shell_pgid : Int)
    (os : OS) :
    (s.foreground = 0 →
      (main_parent s job_list pid shell_pgid os).2.filter is_add_job
        = [Event.add_job (c_int s.next_jid) pid .RUNNING s.command_path] ∧
      (main_parent s job_list pid shell_pgid os).2.filter is_waitpid = [] ∧
      (main_parent s job_list pid shell_pgid os).1.job_list
        = some (add_job job_list (c_int s.next_jid) pid .RUNNING s.command_path).2 ∧
      (main_parent s job_list pid shell_pgid os).1.next_jid = c_int (s.next_jid + 1)) ∧
    (s.foreground ≠ 0 →
      (main_parent s job_list pid shell_pgid os).2.filter is_waitpid
        = [Event.waitpid pid [.WUNTRACED]] ∧
      ((main_parent s job_list pid shell_pgid os).2.filter is_add_job
        = if WIFSTOPPED os.status = true then
            [Event.add_job (c_int s.next_jid) pid .STOPPED s.command_path]
          else []) ∧
      (WIFSTOPPED os.status = true →
        (main_parent s job_list pid shell_pgid os).1.job_list
          = some (add_job job_list (c_int s.next_jid) pid .STOPPED s.command_path).2 ∧
        (main_parent s job_list pid shell_pgid os).1.next_jid = c_int (s.next_jid + 1)) ∧
      (WIFEXITED os.status = true ∨ WIFSIGNALED os.status = true →
        (main_parent s job_list pid shell_pgid os).2.filter is_add_job = [] ∧
        (main_parent s job_list pid shell_pgid os).1 = s)) := by
  constructor
  · intro hf
    rw [main_parent_background s job_list pid shell_pgid os hf]
    simp only [apply_ite (List.filter is_add_job), apply_ite (List.filter is_waitpid),
      List.filter_append, filter_cons_eq, List.filter_nil, is_add_job, is_waitpid, if_true,
      Bool.false_eq_true, if_false, List.append_nil, List.nil_append, ite_self, and_self]
  · intro hf
    cases hs : WIFSTOPPED os.status with
    | true =>
      rw [main_parent_stopped s job_list pid shell_pgid os hf hs]
      have he := not_exited_of_stopped os.status hs
      have hk := not_signaled_of_stopped os.status hs
      simp only [apply_ite (List.filter is_add_job), apply_ite (List.filter is_waitpid),
        List.filter_append, filter_cons_eq, List.filter_nil, is_add_job, is_waitpid, if_true,
        Bool.false_eq_true, if_false, List.append_nil, List.nil_append, ite_self, and_self,
        he, hk, or_self, false_implies, true_implies, implies_true]
    | false =>
      rw [main_parent_not_stopped s job_list pid shell_pgid os hf hs]
      simp only [apply_ite (List.filter is_add_job), apply_ite (List.filter is_waitpid),
        List.filter_append, filter_cons_eq, List.filter_nil, is_add_job, is_waitpid, if_true,
        Bool.false_eq_true, if_false, List.append_nil, List.nil_append, ite_self, and_self,
        false_implies, true_implies, implies_true]

theorem main_parent_inserts_witness :
    ((shell_with (init_job_list 8) 1 0).foreground = 0 ∧
      (main_parent (shell_with (init_job_list 8) 1 0) (init_job_list 8) 100 50 os_ok).2.filter
        is_add_job = [Event.add_job 1 100 .RUNNING none]) ∧
    ((shell_with (init_job_list 8) 1 1).foreground ≠ 0 ∧ WIFSTOPPED os_stopped.status = true ∧
      (main_parent (shell_with (init_job_list 8) 1 1) (init_job_list 8) 100 50
        os_stopped).1.next_jid = 1 + 1) ∧
    ((WIFEXITED os_ok.status = true ∨ WIFSIGNALED os_ok.status = true) ∧
      (main_parent (shell_with (init_job_list 8) 1 1) (init_job_list 8) 100 50 os_ok).1
        = shell_with (init_job_list 8) 1 1) :=
  ⟨⟨rfl, ((main_parent_inserts (shell_with (init_job_list 8) 1 0) (init_job_list 8) 100 50
      os_ok).1 rfl).1⟩,
    ⟨by decide, by decide,
      (((main_parent_inserts (shell_with (init_job_list 8) 1 1) (init_job_list 8) 100 50
        os_stopped).2 (by decide)).2.2.1 (by decide)).2⟩,
    ⟨Or.inl (by decide),
      (((main_parent_inserts (shell_with (init_job_list 8) 1 1) (init_job_list 8) 100 50
        os_ok).2 (by decide)).2.2.2 (Or.inl (by decide))).2⟩⟩

theorem main_parent_add_job_calls (s : Shell) (job_list : job_list_t) (pid shell_pgid : Int)
    (os : OS) :
    (main_parent s job_list pid shell_pgid os).2.filter is_add_job =
      if s.foreground = 0 then [Event.add_job (c_int s.next_jid) pid .RUNNING s.command_path]
      else if WIFSTOPPED os.status = true then
        [Event.add_job (c_int s.next_jid) pid .STOPPED s.command_path]
      else [] := by
  by_cases hf : s.foreground = 0
  · rw [main_parent_background s job_list pid shell_pgid os hf, if_pos hf]
    simp only [apply_ite (List.filter is_add_job), List.filter_append, filter_cons_eq,
      List.filter_nil, is_add_job, if_true, Bool.false_eq_true, if_false, List.append_nil,
      List.nil_append, ite_self]
  · rw [if_neg hf]
    cases hs : WIFSTOPPED os.status with
    | true =>
      rw [main_parent_stopped s job_list pid shell_pgid os hf hs]
      simp only [apply_ite (List.filter is_add_job), List.filter_append, filter_cons_eq,
        List.filter_nil, is_add_job, if_true, Bool.false_eq_true, if_false, List.append_nil,
        List.nil_append, ite_self]
    | false =>
      rw [main_parent_not_stopped s job_list pid shell_pgid os hf hs]
      simp only [apply_ite (List.filter is_add_job), List.filter_append, filter_cons_eq,
        List.filter_nil, is_add_job, if_true, Bool.false_eq_true, if_false, List.append_nil,
        List.nil_append, ite_self]

/-- C9: whenever the parent branch of `main` calls `add_job jid p state command`,
the one line it prints carries that `jid` and that `p` as its first two numbers
(`[%d] (%d)` for a background launch, `[%d] (%d) suspended by signal %d` for a
foreground stop), `p` is the child's pid, and the table afterwards is the result
of that `add_job` call, which holds the entry `jid`, `p` when there was room. -/
theorem main_parent_prints_added_jid (s : Shell) (job_list : job_list_t)
    (pid shell_pgid : Int) (os : OS) (jid p : Int) (state : process_state_t)
    (command : Option CStr)
    (h : Event.add_job jid p state command ∈ (main_parent s job_list pid shell_pgid os).2) :
    p = pid ∧
    (∃ more, (main_parent s job_list pid shell_pgid os).2.filter is_printf =
      [Event.printf
        (if state = .RUNNING then "[%d] (%d)\n" else "[%d] (%d) suspended by signal %d\n")
        (jid :: p :: more)]) ∧
    (main_parent s job_list pid shell_pgid os).1.job_list
      = some (add_job job_list jid p state command).2 ∧
    (job_list.entries.length < job_list.capacity →
      (add_job job_list jid p state command).2.entries
        = job_list.entries ++ [⟨jid, p, state, command⟩]) := by
  have hadd : ∀ (jid p : Int) (state : process_state_t) (command : Option CStr),
      job_list.entries.length < job_list.capacity →
      (add_job job_list jid p state command).2.entries
        = job_list.entries ++ [⟨jid, p, state, command⟩] := by
    intro jid p state command hc
    simp [add_job, hc]
  have hmem : Event.add_job jid p state command
      ∈ (main_parent s job_list pid shell_pgid os).2.filter is_add_job :=
    List.mem_filter.2 ⟨h, rfl⟩
  rw [main_parent_add_job_calls] at hmem
  by_cases hf : s.foreground = 0
  · rw [if_pos hf] at hmem
    simp only [List.mem_singleton, Event.add_job.injEq] at hmem
    obtain ⟨h1, h2, h3, h4⟩ := hmem
    rw [h1, h2, h3, h4, main_parent_background s job_list pid shell_pgid os hf]
    refine ⟨rfl, ⟨[], ?_⟩, rfl, hadd _ _ _ _⟩
    simp only [apply_ite (List.filter is_printf), List.filter_append, filter_cons_eq,
      List.filter_nil, is_printf, if_true, Bool.false_eq_true, if_false, List.append_nil,
      List.nil_append, ite_self]
  · cases hs : WIFSTOPPED os.status with
    | false =>
      rw [if_neg hf, hs] at hmem
      simp at hmem
    | true =>
      rw [if_neg hf, hs] at hmem
      simp only [if_true, List.mem_singleton, Event.add_job.injEq] at hmem
      obtain ⟨h1, h2, h3, h4⟩ := hmem
      rw [h1, h2, h3, h4, main_parent_stopped s job_list pid shell_pgid os hf hs]
      refine ⟨rfl, ⟨[WSTOPSIG os.status], ?_⟩, rfl, hadd _ _ _ _⟩
      simp only [apply_ite (List.filter is_printf), List.filter_append, filter_cons_eq,
        List.filter_nil, is_printf, if_true, Bool.false_eq_true, if_false, List.append_nil,
        List.nil_append, ite_self, reduceCtorEq]

theorem main_parent_prints_added_jid_witness :
    Event.add_job 1 100 .STOPPED none
      ∈ (main_parent (shell_with (init_job_list 8) 1 1) (init_job_list 8) 100 50 os_stopped).2 ∧
    (100 : Int) = 100 ∧
    (main_parent (shell_with (init_job_list 8) 1 1) (init_job_list 8) 100 50
        os_stopped).1.job_list
      = some (add_job (init_job_list 8) 1 100 .STOPPED none).2 :=
  ⟨by decide,
    (main_parent_prints_added_jid (shell_with (init_job_list 8) 1 1) (init_job_list 8) 100 50
      os_stopped 1 100 .STOPPED none (by decide)).1,
    (main_parent_prints_added_jid (shell_with (init_job_list 8) 1 1) (init_job_list 8) 100 50
      os_stopped 1 100 .STOPPED none (by decide)).2.2.1⟩

/-! ## `fg` on an existing job -/

theorem update_job_jid_found (job_list : job_list_t) (jid : Int) (state : process_state_t)
    (h : job_list.entries.any (fun j => decide (j.jid = jid)) = true) :
    (update_job_jid job_list jid state).1 = 0 ∧
    (update_job_jid job_list jid state).2.entries.any (fun j => decide (j.jid = jid)) = true := by
  unfold update_job_jid
  rw [if_pos h]
  exact ⟨rfl, by rw [update_first_any_jid]; exact h⟩

theorem remove_job_jid_found (job_list : job_list_t) (jid : Int)
    (h : job_list.entries.any (fun j => decide (j.jid = jid)) = true) :
    (remove_job_jid job_list jid).1 = 0 := by
  unfold remove_job_jid
  rw [if_pos h]

/-- C7: `fg %N` on a job of the table, with the signal sent and the terminal
granted, makes these calls in this order (the `perror` diagnostics of a failed
`waitpid` or reclaim left out): SIGCONT to the group `-pid`, terminal to `pid`,
entry to RUNNING, `waitpid(-pid, WUNTRACED)`, terminal back to `shell_pgid`, and
only then the action of the status: stopped, the entry is updated to STOPPED and
the stop printed; killed by a signal, the signal is printed and the entry removed
by jid; exited, the entry is removed by jid. -/
theorem handle_fg_order (job_list : job_list_t) (argv : List (Option CStr))
    (shell_pgid : Int) (os : OS) (digits : CStr)
    (hargv : argv_at argv 1 = some ('%' :: digits))
    (hjob : get_job_pid job_list (atoi digits) ≠ -1)
    (hkill : 0 ≤ os.kill) (hgrant : 0 ≤ os.tcsetpgrp_grant) :
    (WIFSTOPPED os.status = true →
      without_perror (handle_fg job_list argv shell_pgid os).2.2 =
        [Event.kill (-get_job_pid job_list (atoi digits)) .SIGCONT,
          Event.tcsetpgrp (get_job_pid job_list (atoi digits)),
          Event.update_job_jid (atoi digits) .RUNNING,
          Event.waitpid (-get_job_pid job_list (atoi digits)) [.WUNTRACED],
          Event.tcsetpgrp shell_pgid,
          Event.update_job_jid (atoi digits) .STOPPED,
          Event.printf "[%d] (%d) suspended by signal %d\n"
            [atoi digits, get_job_pid job_list (atoi digits), WSTOPSIG os.status]] ∧
      (handle_fg job_list argv shell_pgid os).2.1 =
        (update_job_jid (update_job_jid job_list (atoi digits) .RUNNING).2
          (atoi digits) .STOPPED).2) ∧
    (WIFSIGNALED os.status = true →
      without_perror (handle_fg job_list argv shell_pgid os).2.2 =
        [Event.kill (-get_job_pid job_list (atoi digits)) .SIGCONT,
          Event.tcsetpgrp (get_job_pid job_list (atoi digits)),
          Event.update_job_jid (atoi digits) .RUNNING,
          Event.waitpid (-get_job_pid job_list (atoi digits)) [.WUNTRACED],
          Event.tcsetpgrp shell_pgid,
          Event.printf "(%d) terminated by signal %d\n"
            [get_job_pid job_list (atoi digits), WTERMSIG os.status],
          Event.remove_job_jid (atoi digits)] ∧
      (handle_fg job_list argv shell_pgid os).2.1 =
        (remove_job_jid (update_job_jid job_list (atoi digits) .RUNNING).2 (atoi digits)).2) ∧
    (WIFEXITED os.status = true →
      without_perror (handle_fg job_list argv shell_pgid os).2.2 =
        [Event.kill (-get_job_pid job_list (atoi digits)) .SIGCONT,
          Event.tcsetpgrp (get_job_pid job_list (atoi digits)),
          Event.update_job_jid (atoi digits) .RUNNING,
          Event.waitpid (-get_job_pid job_list (atoi digits)) [.WUNTRACED],
          Event.tcsetpgrp shell_pgid,
          Event.remove_job_jid (atoi digits)] ∧
      (handle_fg job_list argv shell_pgid os).2.1 =
        (remove_job_jid (update_job_jid job_list (atoi digits) .RUNNING).2 (atoi digits)).2) := by
  have hany := any_jid_of_get_job_pid job_list (atoi digits) hjob
  obtain ⟨hrun, hany2⟩ := update_job_jid_found job_list (atoi digits) .RUNNING hany
  obtain ⟨hstop, _⟩ := update_job_jid_found
    (update_job_jid job_list (atoi digits) .RUNNING).2 (atoi digits) .STOPPED hany2
  have hrem := remove_job_jid_found
    (update_job_jid job_list (atoi digits) .RUNNING).2 (atoi digits) hany2
  unfold handle_fg
  rw [hargv]
  dsimp only [List.head?, List.tail]
  rw [if_neg (by simp), if_neg hjob, if_neg (not_lt.2 hkill), if_neg (not_lt.2 hgrant),
    if_neg (by rw [hrun]; decide)]
  refine ⟨?_, ?_, ?_⟩
  · intro hs
    rw [if_pos hs, if_neg (by rw [hstop]; decide)]
    refine ⟨?_, rfl⟩
    simp only [without_perror, apply_ite (List.filter _), List.filter_append, filter_cons_eq,
      List.filter_nil, is_perror, Bool.not_false, Bool.not_true, if_true, Bool.false_eq_true,
      if_false, List.append_nil, List.nil_append, ite_self, List.cons_append]
  · intro hk
    have hs : ¬ WIFSTOPPED os.status = true := by
      intro hs
      rw [not_signaled_of_stopped os.status hs] at hk
      exact absurd hk (by decide)
    rw [if_neg hs, if_pos hk, hrem]
    refine ⟨?_, rfl⟩
    simp only [without_perror, apply_ite (List.filter _), List.filter_append, filter_cons_eq,
      List.filter_nil, is_perror, Bool.not_false, Bool.not_true, if_true, Bool.false_eq_true,
      if_false, List.append_nil, List.nil_append, ite_self, List.cons_append, lt_self_iff_false]
  · intro he
    have hs : ¬ WIFSTOPPED os.status = true := by
      intro hs
      rw [not_exited_of_stopped os.status hs] at he
      exact absurd he (by decide)
    have hk : ¬ WIFSIGNALED os.status = true := by
      intro hk
      rw [not_exited_of_signaled os.status hk] at he
      exact absurd he (by decide)
    rw [if_neg hs, if_neg hk, if_pos he, hrem]
    refine ⟨?_, rfl⟩
    simp only [without_perror, apply_ite (List.filter _), List.filter_append, filter_cons_eq,
      List.filter_nil, is_perror, Bool.not_false, Bool.not_true, if_true, Bool.false_eq_true,
      if_false, List.append_nil, List.nil_append, ite_self, List.cons_append, lt_self_iff_false]

theorem handle_fg_order_witness :
    argv_at [some "fg".toList, some "%1".toList, none] 1 = some ('%' :: "1".toList) ∧
    get_job_pid ⟨8, [⟨1, 100, .STOPPED, some "sleep".toList⟩]⟩ (atoi "1".toList) ≠ -1 ∧
    WIFSTOPPED os_stopped.status = true ∧
    without_perror (handle_fg ⟨8, [⟨1, 100, .STOPPED, some "sleep".toList⟩]⟩
        [some "fg".toList, some "%1".toList, none] 50 os_stopped).2.2 =
      [Event.kill (-get_job_pid ⟨8, [⟨1, 100, .STOPPED, some "sleep".toList⟩]⟩
          (atoi "1".toList)) .SIGCONT,
        Event.tcsetpgrp (get_job_pid ⟨8, [⟨1, 100, .STOPPED, some "sleep".toList⟩]⟩
          (atoi "1".toList)),
        Event.update_job_jid (atoi "1".toList) .RUNNING,
        Event.waitpid (-get_job_pid ⟨8, [⟨1, 100, .STOPPED, some "sleep".toList⟩]⟩
          (atoi "1".toList)) [.WUNTRACED],
        Event.tcsetpgrp 50,
        Event.update_job_jid (atoi "1".toList) .STOPPED,
        Event.printf "[%d] (%d) suspended by signal %d\n"
          [atoi "1".toList,
            get_job_pid ⟨8, [⟨1, 100, .STOPPED, some "sleep".toList⟩]⟩ (atoi "1".toList),
            WSTOPSIG os_stopped.status]] :=
  ⟨by decide, by decide, by decide,
    ((handle_fg_order ⟨8, [⟨1, 100, .STOPPED, some "sleep".toList⟩]⟩
      [some "fg".toList, some "%1".toList, none] 50 os_stopped "1".toList
      (by decide) (by decide) (by decide) (by decide)).1 (by decide)).1⟩

/-! ## Runs of `main` -/

/-- C1: on the first line `ls > a > b` `parse` reports the second output redirect
and leaves `command_path` at `NULL`, and `main` still forks a child, grants it the
terminal and waits for it, because `argv[0]` was set before the error.  After a
background command, the line `<` (no redirection file) is forked as well, not
waited for, and inserted in the job table with a `NULL` command. -/
theorem parse_error_still_forks :
    (parse "ls > a > b\n".toList (shell_with (init_job_list 8) 1 1)).1.command_path = none ∧
    (main 8 argv_null 50 [input_line "ls > a > b\n" os_ok]).events =
      [Event.init_job_list, Event.getpgrp, Event.signal .SIGINT .SIG_IGN,
        Event.signal .SIGTSTP .SIG_IGN, Event.signal .SIGTTOU .SIG_IGN,
        Event.waitpid (-1) [.WNOHANG, .WUNTRACED, .WCONTINUED], Event.read,
        Event.fprintf_stderr "ERROR - Can't have two output redirects on one line.\n",
        Event.fork, Event.setpgid 100 100, Event.tcsetpgrp 100,
        Event.waitpid 100 [.WUNTRACED], Event.tcsetpgrp 50] ∧
    (main 8 argv_null 50
        [input_line "sleep 5 &\n" os_ok, input_line "<\n" os_second]).events =
      [Event.init_job_list, Event.getpgrp, Event.signal .SIGINT .SIG_IGN,
        Event.signal .SIGTSTP .SIG_IGN, Event.signal .SIGTTOU .SIG_IGN,
        Event.waitpid (-1) [.WNOHANG, .WUNTRACED, .WCONTINUED], Event.read,
        Event.fork, Event.setpgid 100 100,
        Event.add_job 1 100 .RUNNING (some "sleep".toList), Event.printf "[%d] (%d)\n" [1, 100],
        Event.waitpid (-1) [.WNOHANG, .WUNTRACED, .WCONTINUED], Event.read,
        Event.fprintf_stderr "ERROR - No redirection file specified.\n",
        Event.fork, Event.setpgid 101 101,
        Event.add_job 2 101 .RUNNING none, Event.printf "[%d] (%d)\n" [2, 101]] := by
  refine ⟨?_, ?_, ?_⟩ <;> decide

/-- C8: on the line `exit`, `cleanup_job_list` is called twice before the shell
exits: by `handle_builtin` on the job table, and again by `main` on the `job_list`
that `handle_builtin` has just set to `NULL`.  At end of input it is called once. -/
theorem exit_builtin_cleans_up_twice :
    (main 8 argv_null 50 [input_line "exit\n" os_ok]).ctl = .exited ∧
    (main 8 argv_null 50 [input_line "exit\n" os_ok]).events.filter is_cleanup =
      [Event.cleanup_job_list (some (init_job_list 8)), Event.cleanup_job_list none] ∧
    (main 8 argv_null 50 [input_line "" os_ok]).ctl = .exited ∧
    (main 8 argv_null 50 [input_line "" os_ok]).events.filter is_cleanup =
      [Event.cleanup_job_list (some (init_job_list 8))] := by
  refine ⟨?_, ?_, ?_, ?_⟩ <;> decide

/-- C10: for the foreground command `sleep 100` stopped by signal 20, the parent
branch of `main` grants the terminal, waits, calls `add_job` and prints the
suspension, and only then gives the terminal back to the shell: the reclaim
`tcsetpgrp(STDIN_FILENO, shell_pgid)` is the last call, after the insertion and the
report. -/
theorem foreground_stop_reclaims_last :
    (main 8 argv_null 50 [input_line "sleep 100\n" os_stopped]).events =
      [Event.init_job_list, Event.getpgrp, Event.signal .SIGINT .SIG_IGN,
        Event.signal .SIGTSTP .SIG_IGN, Event.signal .SIGTTOU .SIG_IGN,
        Event.waitpid (-1) [.WNOHANG, .WUNTRACED, .WCONTINUED], Event.read,
        Event.fork, Event.setpgid 100 100, Event.tcsetpgrp 100,
        Event.waitpid 100 [.WUNTRACED],
        Event.add_job 1 100 .STOPPED (some "sleep".toList),
        Event.printf "[%d] (%d) suspended by signal %d\n" [1, 100, 20],
        Event.tcsetpgrp 50] := by
  decide

/-- C6: the line `sleep 100` is stopped and inserted as job 1; then the foreground
line `ls` is forked as 101 and its `waitpid` fails, so that nothing is reported and
`status` is not written.  The code prints `wait error`, tests `status` all the
same, and calls `add_job(2, 101, STOPPED, "ls")` for a child that no wait reported
as stopped: the table ends with two STOPPED entries. -/
theorem failed_wait_inserts_job :
    (main 8 argv_null 50
        [input_line "sleep 100\n" os_stopped, input_line "ls\n" os_wait_failed]).events =
      [Event.init_job_list, Event.getpgrp, Event.signal .SIGINT .SIG_IGN,
        Event.signal .SIGTSTP .SIG_IGN, Event.signal .SIGTTOU .SIG_IGN,
        Event.waitpid (-1) [.WNOHANG, .WUNTRACED, .WCONTINUED], Event.read,
        Event.fork, Event.setpgid 100 100, Event.tcsetpgrp 100,
        Event.waitpid 100 [.WUNTRACED],
        Event.add_job 1 100 .STOPPED (some "sleep".toList),
        Event.printf "[%d] (%d) suspended by signal %d\n" [1, 100, 20],
        Event.tcsetpgrp 50,
        Event.waitpid (-1) [.WNOHANG, .WUNTRACED, .WCONTINUED], Event.read,
        Event.fork, Event.setpgid 101 101, Event.tcsetpgrp 101,
        Event.waitpid 101 [.WUNTRACED], Event.perror "wait error",
        Event.add_job 2 101 .STOPPED (some "ls".toList),
        Event.printf "[%d] (%d) suspended by signal %d\n" [2, 101, 20],
        Event.tcsetpgrp 50] ∧
    (main 8 argv_null 50
        [input_line "sleep 100\n" os_stopped, input_line "ls\n" os_wait_failed]).shell.job_list =
      some ⟨8, [⟨1, 100, .STOPPED, some "sleep".toList⟩, ⟨2, 101, .STOPPED, some "ls".toList⟩]⟩ := by
  refine ⟨?_, ?_⟩ <;> decide!

/-! ## The child branch of `main` -/

theorem child_steps_append (a b : List Event) :
    child_steps (a ++ b) = child_steps a ++ child_steps b := by
  simp [child_steps]

theorem child_steps_nil : child_steps [] = [] := rfl

theorem child_steps_cons (e : Event) (rest : List Event) :
    child_steps (e :: rest) = (child_step e).toList ++ child_steps rest := by
  cases h : child_step e <;> simp [child_steps, List.filterMap_cons, h]

theorem redirect_input_succeeds (in_file : Option CStr) (os : OS)
    (h : in_file ≠ none → 0 ≤ os.open_in ∧ 0 ≤ os.dup2_in) :
    redirect_input in_file os = (input_redirected in_file os.open_in, false) := by
  cases in_file with
  | none => rfl
  | some f =>
    obtain ⟨h1, h2⟩ := h (by simp)
    unfold redirect_input
    dsimp only
    rw [if_neg (not_lt.2 h1), if_neg (not_lt.2 h2)]
    rfl

theorem redirect_output_succeeds (out_file : Option CStr) (append_flag : Int) (os : OS)
    (h : out_file ≠ none → 0 ≤ os.open_out ∧ 0 ≤ os.dup2_out) :
    redirect_output out_file append_flag os
      = (output_redirected out_file append_flag os.open_out, false) := by
  cases out_file with
  | none => rfl
  | some f =>
    obtain ⟨h1, h2⟩ := h (by simp)
    unfold redirect_output
    dsimp only
    rw [if_neg (not_lt.2 h1), if_neg (not_lt.2 h2)]
    rfl

theorem redirect_input_steps (in_file : Option CStr) (os : OS) :
    (∃ k, child_steps (redirect_input in_file os).1 = List.replicate k 3) ∧
    ((redirect_input in_file os).2 = true →
      (redirect_input in_file os).1.getLast? = some (Event.exit_process EXIT_FAILURE)) := by
  cases in_file with
  | none => exact ⟨⟨0, rfl⟩, fun h => absurd h (by simp [redirect_input])⟩
  | some f =>
    unfold redirect_input
    dsimp only
    by_cases h1 : os.open_in < 0
    · rw [if_pos h1]
      exact ⟨⟨1, rfl⟩, fun _ => rfl⟩
    · rw [if_neg h1]
      by_cases h2 : os.dup2_in < 0
      · rw [if_pos h2]
        exact ⟨⟨2, rfl⟩, fun _ => rfl⟩
      · rw [if_neg h2]
        exact ⟨⟨3, rfl⟩, fun h => absurd h (by simp)⟩

theorem redirect_output_steps (out_file : Option CStr) (append_flag : Int) (os : OS) :
    (∃ k, child_steps (redirect_output out_file append_flag os).1 = List.replicate k 3) ∧
    ((redirect_output out_file append_flag os).2 = true →
      (redirect_output out_file append_flag os).1.getLast?
        = some (Event.exit_process EXIT_FAILURE)) := by
  cases out_file with
  | none => exact ⟨⟨0, rfl⟩, fun h => absurd h (by simp [redirect_output])⟩
  | some f =>
    unfold redirect_output
    dsimp only
    by_cases h1 : os.open_out < 0
    · rw [if_pos h1]
      exact ⟨⟨1, rfl⟩, fun _ => rfl⟩
    · rw [if_neg h1]
      by_cases h2 : os.dup2_out < 0
      · rw [if_pos h2]
        exact ⟨⟨2, rfl⟩, fun _ => rfl⟩
      · rw [if_neg h2]
        exact ⟨⟨3, rfl⟩, fun h => absurd h (by simp)⟩

theorem execute_command_steps (command_path : Option CStr) (argv : List (Option CStr))
    (in_file out_file : Option CStr) (append_flag : Int) (os : OS) :
    (∃ k m, child_steps (execute_command command_path argv in_file out_file append_flag os).1
      = List.replicate k 3 ++ List.replicate m 4) ∧
    ((execute_command command_path argv in_file out_file append_flag os).2 = none ∨
      (execute_command command_path argv in_file out_file append_flag os).2 = some .execed ∨
      ((execute_command command_path argv in_file out_file append_flag os).2
          = some (.exited EXIT_FAILURE) ∧
        (execute_command command_path argv in_file out_file append_flag os).1.getLast?
          = some (Event.exit_process EXIT_FAILURE))) := by
  cases command_path with
  | none => exact ⟨⟨0, 0, rfl⟩, Or.inl rfl⟩
  | some cp =>
    unfold execute_command
    dsimp only
    by_cases h0 : argv_at argv 0 = none
    · rw [if_pos h0]
      exact ⟨⟨0, 0, rfl⟩, Or.inl rfl⟩
    · rw [if_neg h0]
      obtain ⟨⟨k1, hk1⟩, hin⟩ := redirect_input_steps in_file os
      obtain ⟨⟨k2, hk2⟩, hout⟩ := redirect_output_steps out_file append_flag os
      by_cases h1 : (redirect_input in_file os).2 = true
      · rw [if_pos h1]
        exact ⟨⟨k1, 0, by simpa using hk1⟩, Or.inr (Or.inr ⟨rfl, hin h1⟩)⟩
      · rw [if_neg h1]
        by_cases h2 : (redirect_output out_file append_flag os).2 = true
        · rw [if_pos h2]
          refine ⟨⟨k1 + k2, 0, ?_⟩, Or.inr (Or.inr ⟨rfl, ?_⟩)⟩
          · rw [child_steps_append, hk1, hk2, List.replicate_add, List.replicate_zero,
              List.append_nil]
          · have := hout h2
            cases hl : (redirect_output out_file append_flag os).1 with
            | nil => rw [hl] at this; simp at this
            | cons e es =>
              rw [hl] at this
              rw [List.getLast?_append_of_ne_nil _ (by simp), this]
        · rw [if_neg h2]
          by_cases h3 : os.execv = -1
          · rw [if_pos h3]
            refine ⟨⟨k1 + k2, 1, ?_⟩, Or.inr (Or.inr ⟨rfl, ?_⟩)⟩
            · rw [child_steps_append, child_steps_append, hk1, hk2, List.replicate_add]
              rfl
            · simp
          · rw [if_neg h3]
            refine ⟨⟨k1 + k2, 1, ?_⟩, Or.inr (Or.inl rfl)⟩
            rw [child_steps_append, child_steps_append, hk1, hk2, List.replicate_add]
            rfl

theorem main_child_after_setup (s : Shell) (os : OS) (hgroup : os.setpgid ≠ -1)
    (hclaim : s.foreground ≠ 0 → os.tcsetpgrp_grant ≠ -1) :
    (∀ executed e,
      execute_command s.command_path s.argv s.in_file s.out_file s.append_flag os
        = (executed, some e) →
      main_child s os = (child_setup s.foreground os.getpid ++ executed, e)) ∧
    (∀ executed,
      execute_command s.command_path s.argv s.in_file s.out_file s.append_flag os
        = (executed, none) →
      main_child s os = (child_setup s.foreground os.getpid ++ executed
        ++ [Event.exit_process EXIT_FAILURE], .exited EXIT_FAILURE)) := by
  have hc : ¬ (s.foreground ≠ 0 ∧ os.tcsetpgrp_grant = -1) := fun h => hclaim h.1 h.2
  constructor
  · intro executed e hx
    unfold main_child
    rw [if_neg hgroup, if_neg hc]
    dsimp only
    rw [hx]
    rfl
  · intro executed hx
    unfold main_child
    rw [if_neg hgroup, if_neg hc]
    dsimp only
    rw [hx]
    rfl

theorem child_setup_steps (foreground pid : Int) :
    child_steps (child_setup foreground pid)
      = [0] ++ (if foreground ≠ 0 then [1, 1] else []) ++ [2, 2, 2, 2] := by
  unfold child_setup
  by_cases h : foreground ≠ 0
  · rw [if_pos h, if_pos h]; rfl
  · rw [if_neg h, if_neg h]; rfl

theorem child_steps_sorted (foreground pid : Int) (k m : Nat) :
    List.Pairwise (· ≤ ·)
      (child_steps (child_setup foreground pid) ++ (List.replicate k 3 ++ List.replicate m 4)) := by
  have hsetup : List.Pairwise (· ≤ ·) (child_steps (child_setup foreground pid)) ∧
      ∀ a ∈ child_steps (child_setup foreground pid), a ≤ 2 := by
    rw [child_setup_steps]
    by_cases h : foreground ≠ 0
    · rw [if_pos h]; exact ⟨by decide, by decide⟩
    · rw [if_neg h]; exact ⟨by decide, by decide⟩
  have hlow : ∀ b ∈ List.replicate k 3 ++ List.replicate m 4, 3 ≤ b := by
    intro b hb
    rcases List.mem_append.1 hb with h | h
    · rw [List.eq_of_mem_replicate h]
    · rw [List.eq_of_mem_replicate h]; decide
  have hrest : List.Pairwise (· ≤ ·) (List.replicate k 3 ++ List.replicate m 4) := by
    refine List.pairwise_append.2 ⟨?_, ?_, ?_⟩
    · exact List.pairwise_replicate.2 (Or.inr (le_refl 3))
    · exact List.pairwise_replicate.2 (Or.inr (le_refl 4))
    · intro a ha b hb
      rw [List.eq_of_mem_replicate ha, List.eq_of_mem_replicate hb]
      decide
  refine List.pairwise_append.2 ⟨hsetup.1, hrest, ?_⟩
  intro a ha b hb
  exact le_trans (hsetup.2 a ha) (le_trans (by decide) (hlow b hb))

theorem redirect_input_open_fails (in_file : CStr) (os : OS) (h : os.open_in < 0) :
    redirect_input (some in_file) os =
      ([Event.sys_open in_file [.O_RDONLY], Event.perror "Failed to open input file",
        Event.exit_process EXIT_FAILURE], true) := by
  unfold redirect_input
  dsimp only
  rw [if_pos h]

theorem redirect_input_dup2_fails (in_file : CStr) (os : OS) (h1 : 0 ≤ os.open_in)
    (h2 : os.dup2_in < 0) :
    redirect_input (some in_file) os =
      ([Event.sys_open in_file [.O_RDONLY], Event.dup2 os.open_in 0,
        Event.perror "Failed to redirect stdin", Event.exit_process EXIT_FAILURE], true) := by
  unfold redirect_input
  dsimp only
  rw [if_neg (not_lt.2 h1), if_pos h2]

theorem redirect_output_open_fails (out_file : CStr) (append_flag : Int) (os : OS)
    (h : os.open_out < 0) :
    redirect_output (some out_file) append_flag os =
      ([Event.sys_open out_file (output_flags append_flag),
        Event.perror "Failed to open output file", Event.exit_process EXIT_FAILURE], true) := by
  unfold redirect_output
  dsimp only
  rw [if_pos h]
  rfl

theorem redirect_output_dup2_fails (out_file : CStr) (append_flag : Int) (os : OS)
    (h1 : 0 ≤ os.open_out) (h2 : os.dup2_out < 0) :
    redirect_output (some out_file) append_flag os =
      ([Event.sys_open out_file (output_flags append_flag), Event.dup2 os.open_out 1,
        Event.perror "Failed to redirect stdout", Event.exit_process EXIT_FAILURE], true) := by
  unfold redirect_output
  dsimp only
  rw [if_neg (not_lt.2 h1), if_pos h2]
  rfl

theorem execute_command_input_fails (command_path : CStr) (argv : List (Option CStr))
    (in_file out_file : Option CStr) (append_flag : Int) (os : OS) (events : List Event)
    (hargv : argv_at argv 0 ≠ none) (hin : redirect_input in_file os = (events, true)) :
    execute_command (some command_path) argv in_file out_file append_flag os
      = (events, some (.exited EXIT_FAILURE)) := by
  unfold execute_command
  dsimp only
  rw [if_neg hargv, hin]
  rfl

theorem execute_command_output_fails (command_path : CStr) (argv : List (Option CStr))
    (in_file out_file : Option CStr) (append_flag : Int) (os : OS) (input output : List Event)
    (hargv : argv_at argv 0 ≠ none) (hin : redirect_input in_file os = (input, false))
    (hout : redirect_output out_file append_flag os = (output, true)) :
    execute_command (some command_path) argv in_file out_file append_flag os
      = (input ++ output, some (.exited EXIT_FAILURE)) := by
  unfold execute_command
  dsimp only
  rw [if_neg hargv, hin, hout]
  rfl

theorem execute_command_redirected (command_path : CStr) (argv : List (Option CStr))
    (in_file out_file : Option CStr) (append_flag : Int) (os : OS) (input output : List Event)
    (hargv : argv_at argv 0 ≠ none) (hin : redirect_input in_file os = (input, false))
    (hout : redirect_output out_file append_flag os = (output, false)) :
    (os.execv = -1 →
      execute_command (some command_path) argv in_file out_file append_flag os
        = (input ++ output ++ [Event.execv command_path (execv_args argv),
            Event.perror "execv error", Event.exit_process EXIT_FAILURE],
          some (.exited EXIT_FAILURE))) ∧
    (os.execv ≠ -1 →
      execute_command (some command_path) argv in_file out_file append_flag os
        = (input ++ output ++ [Event.execv command_path (execv_args argv)], some .execed)) := by
  constructor
  · intro h
    unfold execute_command
    dsimp only
    rw [if_neg hargv, hin, hout]
    dsimp only
    rw [if_neg (by decide), if_neg (by decide), if_pos h]
  · intro h
    unfold execute_command
    dsimp only
    rw [if_neg hargv, hin, hout]
    dsimp only
    rw [if_neg (by decide), if_neg (by decide), if_neg h]

theorem main_child_steps_sorted (s : Shell) (os : OS) :
    List.Pairwise (· ≤ ·) (child_steps (main_child s os).1) := by
  by_cases hgroup : os.setpgid = -1
  · unfold main_child
    rw [if_pos hgroup]
    show List.Pairwise (· ≤ ·) [0]
    decide
  · by_cases hclaim : s.foreground ≠ 0 ∧ os.tcsetpgrp_grant = -1
    · unfold main_child
      rw [if_neg hgroup, if_pos hclaim]
      show List.Pairwise (· ≤ ·) [0, 1, 1]
      decide
    · have hc : s.foreground ≠ 0 → os.tcsetpgrp_grant ≠ -1 := fun h1 h2 => hclaim ⟨h1, h2⟩
      obtain ⟨hsome, hnone⟩ := main_child_after_setup s os hgroup hc
      obtain ⟨⟨k, m, hkm⟩, _⟩ := execute_command_steps s.command_path s.argv s.in_file
        s.out_file s.append_flag os
      rcases hx : execute_command s.command_path s.argv s.in_file s.out_file s.append_flag os
        with ⟨executed, _ | e⟩
      · rw [hx] at hkm
        rw [hnone executed hx]
        simp only [child_steps_append, hkm]
        rw [show child_steps [Event.exit_process EXIT_FAILURE] = [] from rfl, List.append_nil]
        exact child_steps_sorted s.foreground os.getpid k m
      · rw [hx] at hkm
        rw [hsome executed e hx]
        simp only [child_steps_append, hkm]
        exact child_steps_sorted s.foreground os.getpid k m

theorem main_child_ends (s : Shell) (os : OS) :
    (main_child s os).1.head? = some (Event.setpgid 0 0) ∧
    ((main_child s os).2 = .execed ∨
      ((main_child s os).2 = .exited EXIT_FAILURE ∧
        (main_child s os).1.getLast? = some (Event.exit_process EXIT_FAILURE))) := by
  by_cases hgroup : os.setpgid = -1
  · unfold main_child
    rw [if_pos hgroup]
    exact ⟨rfl, Or.inr ⟨rfl, rfl⟩⟩
  · by_cases hclaim : s.foreground ≠ 0 ∧ os.tcsetpgrp_grant = -1
    · unfold main_child
      rw [if_neg hgroup, if_pos hclaim]
      exact ⟨rfl, Or.inr ⟨rfl, rfl⟩⟩
    · have hc : s.foreground ≠ 0 → os.tcsetpgrp_grant ≠ -1 := fun h1 h2 => hclaim ⟨h1, h2⟩
      obtain ⟨hsome, hnone⟩ := main_child_after_setup s os hgroup hc
      obtain ⟨_, hend⟩ := execute_command_steps s.command_path s.argv s.in_file
        s.out_file s.append_flag os
      rcases hx : execute_command s.command_path s.argv s.in_file s.out_file s.append_flag os
        with ⟨executed, _ | e⟩
      · rw [hnone executed hx]
        refine ⟨rfl, Or.inr ⟨rfl, ?_⟩⟩
        simp
      · rw [hx] at hend
        rw [hsome executed e hx]
        refine ⟨rfl, ?_⟩
        rcases hend with h | h | ⟨h1, h2⟩
        · exact absurd h (by simp)
        · left
          simpa using h
        · right
          refine ⟨by simpa using h1, ?_⟩
          dsimp only at h2 ⊢
          cases executed with
          | nil => simp at h2
          | cons x xs => rw [List.getLast?_append_of_ne_nil _ (by simp), h2]

theorem execute_command_no_claim (command_path : Option CStr) (argv : List (Option CStr))
    (in_file out_file : Option CStr) (append_flag : Int) (os : OS) :
    (execute_command command_path argv in_file out_file append_flag os).1.filter is_tcsetpgrp
      = [] := by
  obtain ⟨⟨k, m, hkm⟩, _⟩ := execute_command_steps command_path argv in_file out_file
    append_flag os
  rw [List.filter_eq_nil_iff]
  intro e he hclaim
  cases e with
  | tcsetpgrp pgrp =>
    have h1 : 1 ∈ child_steps
        (execute_command command_path argv in_file out_file append_flag os).1 :=
      List.mem_filterMap.2 ⟨_, he, rfl⟩
    rw [hkm] at h1
    rcases List.mem_append.1 h1 with h | h
    · exact absurd (List.eq_of_mem_replicate h) (by decide)
    · exact absurd (List.eq_of_mem_replicate h) (by decide)
  | _ => exact absurd hclaim (by simp [is_tcsetpgrp])

theorem child_setup_claim (foreground pid : Int) :
    (child_setup foreground pid).filter is_tcsetpgrp
      = if foreground ≠ 0 then [Event.tcsetpgrp pid] else [] := by
  unfold child_setup
  by_cases h : foreground ≠ 0
  · rw [if_pos h, if_pos h]; rfl
  · rw [if_neg h, if_neg h]; rfl

theorem main_child_claim (s : Shell) (os : OS) :
    (main_child s os).1.filter is_tcsetpgrp
      = if os.setpgid ≠ -1 ∧ s.foreground ≠ 0 then [Event.tcsetpgrp os.getpid] else [] := by
  by_cases hgroup : os.setpgid = -1
  · unfold main_child
    rw [if_pos hgroup, if_neg (fun h => h.1 hgroup)]
    rfl
  · by_cases hclaim : s.foreground ≠ 0 ∧ os.tcsetpgrp_grant = -1
    · unfold main_child
      rw [if_neg hgroup, if_pos hclaim, if_pos ⟨hgroup, hclaim.1⟩]
      rfl
    · have hc : s.foreground ≠ 0 → os.tcsetpgrp_grant ≠ -1 := fun h1 h2 => hclaim ⟨h1, h2⟩
      obtain ⟨hsome, hnone⟩ := main_child_after_setup s os hgroup hc
      have hno := execute_command_no_claim s.command_path s.argv s.in_file s.out_file
        s.append_flag os
      have hif : (if os.setpgid ≠ -1 ∧ s.foreground ≠ 0 then [Event.tcsetpgrp os.getpid]
          else []) = if s.foreground ≠ 0 then [Event.tcsetpgrp os.getpid] else [] := by
        by_cases hf : s.foreground ≠ 0
        · rw [if_pos ⟨hgroup, hf⟩, if_pos hf]
        · rw [if_neg (fun h => hf h.2), if_neg hf]
      rw [hif]
      rcases hx : execute_command s.command_path s.argv s.in_file s.out_file s.append_flag os
        with ⟨executed, _ | e⟩
      · rw [hx] at hno
        rw [hnone executed hx]
        simp only [List.filter_append, child_setup_claim, hno, List.append_nil]
        rw [show List.filter is_tcsetpgrp [Event.exit_process EXIT_FAILURE] = [] from rfl,
          List.append_nil]
      · rw [hx] at hno
        rw [hsome executed e hx]
        simp only [List.filter_append, child_setup_claim, hno, List.append_nil]

theorem main_child_starts_with_setup (s : Shell) (os : OS) (hgroup : os.setpgid ≠ -1)
    (hclaim : s.foreground ≠ 0 → os.tcsetpgrp_grant ≠ -1) :
    child_setup s.foreground os.getpid <+: (main_child s os).1 := by
  obtain ⟨hsome, hnone⟩ := main_child_after_setup s os hgroup hclaim
  rcases hx : execute_command s.command_path s.argv s.in_file s.out_file s.append_flag os
    with ⟨executed, _ | e⟩
  · rw [hnone executed hx]
    exact ⟨executed ++ [Event.exit_process EXIT_FAILURE], by simp⟩
  · rw [hsome executed e hx]
    exact ⟨executed, rfl⟩

/-- C11: the calls of every forked child are in the order group creation
(`setpgid(0, 0)`, always first), terminal claim, signal reset, redirection, `execv`;
the child ends by replacing its image or by `exit(EXIT_FAILURE)` as its last call;
it claims the terminal, for `getpid()`, exactly when it is a foreground child whose
`setpgid` succeeded.  When `setpgid` fails, or the terminal claim of a foreground
child fails, the child exits with failure right after the diagnostic.  Otherwise
its calls start with the setup (group, claim if foreground, the four signal
resets) and, for a child with a command: a failing `open` or `dup2` of the input or
of the output redirection, or a failing `execv`, is followed by the diagnostic and
`exit(EXIT_FAILURE)` only, and when all succeed the last call is `execv`. -/
theorem main_child_order (s : Shell) (os : OS) :
    List.Pairwise (· ≤ ·) (child_steps (main_child s os).1) ∧
    (main_child s os).1.head? = some (Event.setpgid 0 0) ∧
    ((main_child s os).2 = .execed ∨
      ((main_child s os).2 = .exited EXIT_FAILURE ∧
        (main_child s os).1.getLast? = some (Event.exit_process EXIT_FAILURE))) ∧
    ((main_child s os).1.filter is_tcsetpgrp
      = if os.setpgid ≠ -1 ∧ s.foreground ≠ 0 then [Event.tcsetpgrp os.getpid] else []) ∧
    (os.setpgid ≠ -1 → (s.foreground ≠ 0 → os.tcsetpgrp_grant ≠ -1) →
      child_setup s.foreground os.getpid <+: (main_child s os).1) ∧
    (os.setpgid = -1 →
      main_child s os =
        ([Event.setpgid 0 0, Event.perror "setpgid error in child process",
          Event.exit_process EXIT_FAILURE], .exited EXIT_FAILURE)) ∧
    (os.setpgid ≠ -1 → s.foreground ≠ 0 → os.tcsetpgrp_grant = -1 →
      main_child s os =
        ([Event.setpgid 0 0, Event.getpid, Event.tcsetpgrp os.getpid,
          Event.perror "tcsetpgrp error in child process", Event.exit_process EXIT_FAILURE],
          .exited EXIT_FAILURE)) ∧
    (os.setpgid ≠ -1 → (s.foreground ≠ 0 → os.tcsetpgrp_grant ≠ -1) →
      ∀ command_path, s.command_path = some command_path → argv_at s.argv 0 ≠ none →
        (∀ in_file, s.in_file = some in_file → os.open_in < 0 →
          main_child s os =
            (child_setup s.foreground os.getpid
              ++ [Event.sys_open in_file [.O_RDONLY], Event.perror "Failed to open input file",
                Event.exit_process EXIT_FAILURE], .exited EXIT_FAILURE)) ∧
        (∀ in_file, s.in_file = some in_file → 0 ≤ os.open_in → os.dup2_in < 0 →
          main_child s os =
            (child_setup s.foreground os.getpid
              ++ [Event.sys_open in_file [.O_RDONLY], Event.dup2 os.open_in 0,
                Event.perror "Failed to redirect stdin", Event.exit_process EXIT_FAILURE],
              .exited EXIT_FAILURE)) ∧
        ((s.in_file ≠ none → 0 ≤ os.open_in ∧ 0 ≤ os.dup2_in) →
          (∀ out_file, s.out_file = some out_file → os.open_out < 0 →
            main_child s os =
              (child_setup s.foreground os.getpid ++ (input_redirected s.in_file os.open_in
                ++ [Event.sys_open out_file (output_flags s.append_flag),
                  Event.perror "Failed to open output file", Event.exit_process EXIT_FAILURE]),
                .exited EXIT_FAILURE)) ∧
          (∀ out_file, s.out_file = some out_file → 0 ≤ os.open_out → os.dup2_out < 0 →
            main_child s os =
              (child_setup s.foreground os.getpid ++ (input_redirected s.in_file os.open_in
                ++ [Event.sys_open out_file (output_flags s.append_flag),
                  Event.dup2 os.open_out 1, Event.perror "Failed to redirect stdout",
                  Event.exit_process EXIT_FAILURE]), .exited EXIT_FAILURE)) ∧
          ((s.out_file ≠ none → 0 ≤ os.open_out ∧ 0 ≤ os.dup2_out) →
            (os.execv = -1 →
              main_child s os =
                (child_setup s.foreground os.getpid ++ (input_redirected s.in_file os.open_in
                  ++ output_redirected s.out_file s.append_flag os.open_out
                  ++ [Event.execv command_path (execv_args s.argv), Event.perror "execv error",
                    Event.exit_process EXIT_FAILURE]), .exited EXIT_FAILURE)) ∧
            (os.execv ≠ -1 →
              main_child s os =
                (child_setup s.foreground os.getpid ++ (input_redirected s.in_file os.open_in
                  ++ output_redirected s.out_file s.append_flag os.open_out
                  ++ [Event.execv command_path (execv_args s.argv)]), .execed))))) := by
  refine ⟨main_child_steps_sorted s os, (main_child_ends s os).1, (main_child_ends s os).2,
    main_child_claim s os, main_child_starts_with_setup s os, ?_, ?_, ?_⟩
  · intro hgroup
    unfold main_child
    rw [if_pos hgroup]
  · intro hgroup hfg hclaim
    unfold main_child
    rw [if_neg hgroup, if_pos ⟨hfg, hclaim⟩]
  · intro hgroup hclaim command_path hcp hargv
    obtain ⟨hsome, _⟩ := main_child_after_setup s os hgroup hclaim
    rw [hcp] at hsome
    refine ⟨?_, ?_, ?_⟩
    · intro in_file hin hopen
      exact hsome _ _ (execute_command_input_fails command_path s.argv s.in_file s.out_file
        s.append_flag os _ hargv (by rw [hin]; exact redirect_input_open_fails in_file os hopen))
    · intro in_file hin hopen hdup
      exact hsome _ _ (execute_command_input_fails command_path s.argv s.in_file s.out_file
        s.append_flag os _ hargv
        (by rw [hin]; exact redirect_input_dup2_fails in_file os hopen hdup))
    · intro hinput
      have hin := redirect_input_succeeds s.in_file os hinput
      refine ⟨?_, ?_, ?_⟩
      · intro out_file hout hopen
        exact hsome _ _ (execute_command_output_fails command_path s.argv s.in_file s.out_file
          s.append_flag os _ _ hargv hin
          (by rw [hout]; exact redirect_output_open_fails out_file s.append_flag os hopen))
      · intro out_file hout hopen hdup
        exact hsome _ _ (execute_command_output_fails command_path s.argv s.in_file s.out_file
          s.append_flag os _ _ hargv hin
          (by rw [hout]; exact redirect_output_dup2_fails out_file s.append_flag os hopen hdup))
      · intro houtput
        have hout := redirect_output_succeeds s.out_file s.append_flag os houtput
        have hx := execute_command_redirected command_path s.argv s.in_file s.out_file
          s.append_flag os _ _ hargv hin hout
        exact ⟨fun h => hsome _ _ (hx.1 h), fun h => hsome _ _ (hx.2 h)⟩

theorem main_child_order_witness :
    (os_ok.setpgid ≠ -1 ∧ os_ok.tcsetpgrp_grant ≠ -1 ∧
      shell_ls.command_path = some "/bin/ls".toList ∧ argv_at shell_ls.argv 0 ≠ none ∧
      (0 ≤ os_ok.open_in ∧ 0 ≤ os_ok.dup2_in) ∧ (0 ≤ os_ok.open_out ∧ 0 ≤ os_ok.dup2_out) ∧
      os_ok.execv ≠ -1) ∧
    main_child shell_ls os_ok =
      (child_setup shell_ls.foreground os_ok.getpid ++ (input_redirected shell_ls.in_file
        os_ok.open_in ++ output_redirected shell_ls.out_file shell_ls.append_flag os_ok.open_out
        ++ [Event.execv "/bin/ls".toList (execv_args shell_ls.argv)]), .execed) ∧
    (shell_ls.out_file = some "out".toList ∧ os_no_output.open_out < 0) ∧
    main_child shell_ls os_no_output =
      (child_setup shell_ls.foreground os_no_output.getpid
        ++ (input_redirected shell_ls.in_file os_no_output.open_in
        ++ [Event.sys_open "out".toList (output_flags shell_ls.append_flag),
          Event.perror "Failed to open output file", Event.exit_process EXIT_FAILURE]),
        .exited EXIT_FAILURE) ∧
    List.Pairwise (· ≤ ·) (child_steps (main_child shell_ls os_ok).1) :=
  ⟨by decide,
    (((((main_child_order shell_ls os_ok).2.2.2.2.2.2.2 (by decide) (by decide) "/bin/ls".toList
      (by decide) (by decide)).2.2 (by decide)).2.2 (by decide)).2 (by decide)),
    by decide,
    ((((main_child_order shell_ls os_no_output).2.2.2.2.2.2.2 (by decide) (by decide)
      "/bin/ls".toList (by decide) (by decide)).2.2 (by decide)).1 "out".toList (by decide)
      (by decide)),
    (main_child_order shell_ls os_ok).1⟩

/-! ## A session of `2^31` jobs -/

theorem cycle_first_sleep :
    cycle (shell_with (init_job_list 8) 1 1) 50 (input_line "sleep 5 &\n" os_ok) =
      ⟨shell_sleep 1 2,
        [Event.waitpid (-1) [.WNOHANG, .WUNTRACED, .WCONTINUED], Event.read, Event.fork,
          Event.setpgid 100 100, Event.add_job 1 100 .RUNNING (some "sleep".toList),
          Event.printf "[%d] (%d)\n" [1, 100]], .running⟩ := by
  decide!

theorem parse_sleep (job_list : Option job_list_t) (next_jid foreground : Int) :
    parse "sleep 5 &\n".toList
      (Shell.mk job_list next_jid
        ((argv_null.set 0 (some "sleep".toList)).set 1 (some "5".toList)) none none none 0
        foreground) =
      (Shell.mk job_list next_jid
        ((argv_null.set 0 (some "sleep".toList)).set 1 (some "5".toList))
        (some "sleep".toList) none none 0 0, [], false) := by
  rfl

theorem cycle_next_sleep (jid next_jid : Int) :
    cycle (shell_sleep jid next_jid) 50 input_next_sleep =
      ⟨shell_sleep (c_int next_jid) (c_int (next_jid + 1)),
        [Event.waitpid (-1) [.WNOHANG, .WUNTRACED, .WCONTINUED],
          Event.printf "[%d] (%d) terminated with exit status %d\n" [jid, 100, 0],
          Event.remove_job_pid 100,
          Event.waitpid (-1) [.WNOHANG, .WUNTRACED, .WCONTINUED], Event.read, Event.fork,
          Event.setpgid 100 100,
          Event.add_job (c_int next_jid) 100 .RUNNING (some "sleep".toList),
          Event.printf "[%d] (%d)\n" [c_int next_jid, 100]], .running⟩ := by
  have hreap : check_background_jobs ⟨8, [⟨jid, 100, .RUNNING, some "sleep".toList⟩]⟩ [(100, 0)]
      = (⟨8, []⟩, [Event.waitpid (-1) [.WNOHANG, .WUNTRACED, .WCONTINUED],
          Event.printf "[%d] (%d) terminated with exit status %d\n" [jid, 100, 0],
          Event.remove_job_pid 100,
          Event.waitpid (-1) [.WNOHANG, .WUNTRACED, .WCONTINUED]]) := rfl
  have hinput : handle_input "sleep 5 &\n".toList 10 = 0 := by decide
  unfold cycle shell_sleep input_next_sleep
  dsimp only
  rw [hreap]
  dsimp only
  rw [hinput, if_neg (by decide), if_neg (by decide)]
  rw [parse_sleep]
  dsimp only
  rw [if_neg (by decide), if_neg (by decide), if_pos (by decide), if_neg (by decide),
    if_pos (by decide), main_parent_background _ _ _ _ _ rfl]
  rfl

theorem mem_jid_seq (n : Int) (k i : Nat) (h : i < k) : n + i ∈ jid_seq n k := by
  induction k generalizing n i with
  | zero => exact absurd h (Nat.not_lt_zero i)
  | succ k ih =>
    cases i with
    | zero => simp [jid_seq]
    | succ i =>
      have := ih (n + 1) i (Nat.lt_of_succ_lt_succ h)
      simp only [jid_seq, List.mem_cons]
      right
      have e : n + ((i + 1 : Nat) : Int) = n + 1 + (i : Int) := by push_cast; omega
      rw [e]
      exact this

theorem sleeps_added_loop (m : Nat) (jid next_jid : Int) :
    added_jids (main_loop 50 (shell_sleep jid next_jid)
      (List.replicate m input_next_sleep)).events = (jid_seq next_jid m).map c_int := by
  induction m generalizing jid next_jid with
  | zero => rfl
  | succ m ih =>
    rw [List.replicate_succ]
    unfold main_loop
    dsimp only
    rw [cycle_next_sleep]
    dsimp only
    rw [added_jids_append, ih, map_c_int_jid_seq]
    rfl

theorem sleeps_added (m : Nat) :
    added_jids (main 8 argv_null 50
      (input_line "sleep 5 &\n" os_ok :: List.replicate m input_next_sleep)).events
      = 1 :: (jid_seq 2 m).map c_int := by
  unfold main
  dsimp only
  unfold main_loop
  dsimp only
  have h := cycle_first_sleep
  unfold shell_with at h
  rw [h]
  dsimp only
  rw [added_jids_append, added_jids_append, sleeps_added_loop]
  rfl

/-- A run that leaves the range of `int`: a session of `2^31` background commands,
each reaped before the next is started.  The jids passed to `add_job` are 1, 2,
..., `2^31 - 1`, then `next_jid++` overflows and the last command is given the jid
`-2^31`, which is not positive and not greater than the earlier ones. -/
theorem main_jids_overflow :
    (-2147483648 : Int) ∈ added_jids (main 8 argv_null 50
      (input_line "sleep 5 &\n" os_ok :: List.replicate 2147483647 input_next_sleep)).events := by
  rw [sleeps_added 2147483647]
  refine List.mem_cons_of_mem _ (List.mem_map.2 ⟨2 + ((2147483646 : Nat) : Int), ?_, ?_⟩)
  · exact mem_jid_seq 2 2147483647 2147483646 (by omega)
  · decide

end Sh
